import Mathlib

/-
  Verification development for the GripMMI telemetry ground-monitor core.

  Shallow embedding of the C++ sources:
    src/Useful/VectorsMixin.cpp    (spatial math, rigid body pose)
    src/Grip/DexAnalogMixin.cpp    (analog derivations and recursive filters)
    src/Grip/GripPackets.h         (packet constants and typed structures)
    src/GripMMI/GripMMIGlobals.h   (buffer dimensions)
    src/GripMMI/GripMMIData.cpp    (cache ingestion pipeline GetGripRT and GetLatestGripHK)

  C doubles are modelled as real numbers; casts to float that appear in the
  source are modelled as the identity (we do not model floating point
  rounding).  Stateful code is modelled by explicit state passing; the
  process-terminating exit() calls are modelled by dedicated outcome
  constructors, one per distinct fatal site.
-/

set_option autoImplicit false

namespace GripMMI

noncomputable section

open Classical

/-! ### Constants from the headers -/

/-- Modelled from the spec: the MISSING sentinel of Useful.h, which is not under
src/.  The spec only says that a sentinel value marks unavailable data; every
claim compares channels against this constant, so its exact numeric value is
immaterial. -/
noncomputable def MISSING_DOUBLE : ℝ := 999999.999999

/-- GripMMIGlobals.h line 22: max number of frames (data slices). -/
def MAX_FRAMES : ℕ := 12 * 60 * 60 * 20

/-- GripMMIGlobals.h line 23. -/
def CODA_MARKERS : ℕ := 20

/-- GripMMIGlobals.h line 62: maximum down sampling to display data. -/
def MAX_PLOT_STEP : ℕ := 8

/-- GripPackets.h line 39. -/
noncomputable def PACKET_STREAM_BREAK_THRESHOLD : ℝ := 1.0

/-- GripPackets.h line 40. -/
def PACKET_STREAM_BREAK_INSERT_SAMPLES : ℕ := 10

/-- GripPackets.h line 55. -/
def RT_SLICES_PER_PACKET : ℕ := 10

/-- GripMMIData.cpp line 42 (also GripPackets.h line 32). -/
def MAX_OPEN_CACHE_RETRIES : ℕ := 5

/-- GripMMIData.cpp line 46 (also GripPackets.h line 36). -/
def ERROR_CACHE_NOT_FOUND : ℤ := -1000

/-- GripMMIData.cpp line 48: grip force threshold for a valid CoP. -/
noncomputable def COP_MIN_GRIP : ℝ := 0.5

/-- GripPackets.h line 50. -/
def EPM_TELEMETRY_SYNC_VALUE : ℕ := 0xFFDB544D

/-- GripPackets.h line 52. -/
def GRIP_RT_ID : ℕ := 0x1001

/-- GripPackets.h line 51. -/
def GRIP_HK_ID : ℕ := 0x0301

/-- Modelled from the spec: N_FORCE_TRANSDUCERS of DexAnalogMixin.h, which is
not under src/.  The spec fixes two 6-axis load sensors, and the payload
structure in GripPackets.h carries exactly two force/torque pairs. -/
def N_FORCE_TRANSDUCERS : ℕ := 2

/-- Modelled from the spec: LEFT_ATI of DexAnalogMixin.h (not under src/);
index of the first of the two transducers. -/
def LEFT_ATI : Fin 2 := 0

/-- Modelled from the spec: RIGHT_ATI of DexAnalogMixin.h (not under src/);
index of the second of the two transducers. -/
def RIGHT_ATI : Fin 2 := 1

/-- Windows TRUE, as returned by the int-valued pipeline entry points. -/
def cTRUE : ℤ := 1

/-- Windows FALSE, as returned by the int-valued pipeline entry points. -/
def cFALSE : ℤ := 0

/-- GripMMIGlobals.h line 43. -/
def MANIPULANDUM_FIRST_MARKER : ℕ := 0

/-- GripMMIGlobals.h line 44. -/
def MANIPULANDUM_LAST_MARKER : ℕ := 7

/-- GripMMIGlobals.h line 45. -/
def FRAME_FIRST_MARKER : ℕ := 8

/-- GripMMIGlobals.h line 46. -/
def FRAME_LAST_MARKER : ℕ := 11

/-- GripMMIGlobals.h line 47. -/
def WRIST_FIRST_MARKER : ℕ := 12

/-- GripMMIGlobals.h line 48. -/
def WRIST_LAST_MARKER : ℕ := 19

/-! ### Vectors, quaternions, matrices (Useful.h types, VectorsMixin.cpp ops) -/

/-- Vector3 of Useful.h: a 3-component double tuple, components indexed by
X, Y, Z in the source. -/
structure Vector3 where
  x : ℝ
  y : ℝ
  z : ℝ

/-- Quaternion of Useful.h: 4 components, indexed X, Y, Z and M (scalar part)
in the source. -/
structure Quaternion where
  x : ℝ
  y : ℝ
  z : ℝ
  m : ℝ

/-- Matrix3x3 of Useful.h: three rows, each a Vector3 (the source stores row
vectors and right-multiplies). -/
structure Matrix3x3 where
  rx : Vector3
  ry : Vector3
  rz : Vector3

/-- VectorsMixin.cpp line 17. -/
def zeroVector : Vector3 := ⟨0, 0, 0⟩

/-- VectorsMixin.cpp line 68: AddVectors. -/
def AddVectors (a b : Vector3) : Vector3 := ⟨a.x + b.x, a.y + b.y, a.z + b.z⟩

/-- VectorsMixin.cpp line 100: SubtractVectors. -/
def SubtractVectors (a b : Vector3) : Vector3 := ⟨a.x - b.x, a.y - b.y, a.z - b.z⟩

/-- VectorsMixin.cpp line 132: ScaleVector.  The source casts each component to
float before multiplying; the cast is modelled as the identity. -/
def ScaleVector (a : Vector3) (scaling : ℝ) : Vector3 :=
  ⟨a.x * scaling, a.y * scaling, a.z * scaling⟩

/-- VectorsMixin.cpp line 151: VectorNorm. -/
noncomputable def VectorNorm (v : Vector3) : ℝ :=
  Real.sqrt (v.x * v.x + v.y * v.y + v.z * v.z)

/-- VectorsMixin.cpp line 155: NormalizeVector (returns the normalized vector
instead of mutating in place). -/
noncomputable def NormalizeVector (v : Vector3) : Vector3 :=
  ScaleVector v (1 / VectorNorm v)

/-- VectorsMixin.cpp line 160: DotProduct. -/
def DotProduct (a b : Vector3) : ℝ := a.x * b.x + a.y * b.y + a.z * b.z

/-- VectorsMixin.cpp line 164: ComputeCrossProduct. -/
def ComputeCrossProduct (v1 v2 : Vector3) : Vector3 :=
  ⟨v1.y * v2.z - v1.z * v2.y, v1.z * v2.x - v1.x * v2.z, v1.x * v2.y - v1.y * v2.x⟩

/-- VectorsMixin.cpp line 342: MultiplyQuaternions. -/
def MultiplyQuaternions (q1 q2 : Quaternion) : Quaternion :=
  { m := q1.m * q2.m - q1.x * q2.x - q1.y * q2.y - q1.z * q2.z
    x := q1.m * q2.x + q1.x * q2.m + q1.y * q2.z - q1.z * q2.y
    y := q1.m * q2.y - q1.x * q2.z + q1.y * q2.m + q1.z * q2.x
    z := q1.m * q2.z + q1.x * q2.y - q1.y * q2.x + q1.z * q2.m }

/-- VectorsMixin.cpp line 351: RotateVector, the sandwich product q v q-conjugate
with v lifted to a pure quaternion. -/
def RotateVector (q : Quaternion) (v : Vector3) : Vector3 :=
  let vq : Quaternion := ⟨v.x, v.y, v.z, 0⟩
  let conjugate : Quaternion := ⟨-q.x, -q.y, -q.z, q.m⟩
  let interim := MultiplyQuaternions q vq
  let rq := MultiplyQuaternions interim conjugate
  ⟨rq.x, rq.y, rq.z⟩

/-- Component access for Vector3 by the source index X = 0, Y = 1, Z = 2. -/
def Vector3.comp (v : Vector3) : Fin 3 → ℝ
  | 0 => v.x
  | 1 => v.y
  | 2 => v.z

/-- Build a Matrix3x3 from an entry function (row index first, as in m[i][j]). -/
def Matrix3x3.ofFun (e : Fin 3 → Fin 3 → ℝ) : Matrix3x3 :=
  ⟨⟨e 0 0, e 0 1, e 0 2⟩, ⟨e 1 0, e 1 1, e 1 2⟩, ⟨e 2 0, e 2 1, e 2 2⟩⟩

/-- VectorsMixin.cpp line 227: MultiplyVector, a row vector right-multiplied by
a matrix: result[i] = sum over j of v[j] * m[j][i]. -/
def MultiplyVector (v : Vector3) (m : Matrix3x3) : Vector3 :=
  ⟨v.x * m.rx.x + v.y * m.ry.x + v.z * m.rz.x,
   v.x * m.rx.y + v.y * m.ry.y + v.z * m.rz.y,
   v.x * m.rx.z + v.y * m.ry.z + v.z * m.rz.z⟩

/-- VectorsMixin.cpp line 200: MultiplyMatrices; row i of the result is row i of
the left factor right-multiplied by the right factor. -/
def MultiplyMatrices (left right : Matrix3x3) : Matrix3x3 :=
  ⟨MultiplyVector left.rx right, MultiplyVector left.ry right, MultiplyVector left.rz right⟩

/-- VectorsMixin.cpp line 193: ScaleMatrix: destination[i][j] = scaling * source[i][j]. -/
def ScaleMatrix (source : Matrix3x3) (scaling : ℝ) : Matrix3x3 :=
  ⟨⟨scaling * source.rx.x, scaling * source.rx.y, scaling * source.rx.z⟩,
   ⟨scaling * source.ry.x, scaling * source.ry.y, scaling * source.ry.z⟩,
   ⟨scaling * source.rz.x, scaling * source.rz.y, scaling * source.rz.z⟩⟩

/-- VectorsMixin.cpp line 298: Determinant, the classical closed form. -/
def Determinant (m : Matrix3x3) : ℝ :=
  m.rx.x * (m.rz.z * m.ry.y - m.rz.y * m.ry.z) -
  m.ry.x * (m.rz.z * m.rx.y - m.rz.y * m.rx.z) +
  m.rz.x * (m.ry.z * m.rx.y - m.ry.y * m.rx.z)

/-- VectorsMixin.cpp line 308: InvertMatrix via the adjugate and determinant;
returns the inverse matrix (written through the reference argument) and the
returned determinant. -/
def InvertMatrix (m : Matrix3x3) : Matrix3x3 × ℝ :=
  let det := Determinant m
  let r : Matrix3x3 :=
    ⟨⟨m.rz.z * m.ry.y - m.rz.y * m.ry.z,
      m.rz.y * m.rx.z - m.rz.z * m.rx.y,
      m.ry.z * m.rx.y - m.ry.y * m.rx.z⟩,
     ⟨m.rz.x * m.ry.z - m.rz.z * m.ry.x,
      m.rz.z * m.rx.x - m.rz.x * m.rx.z,
      m.ry.x * m.rx.z - m.ry.z * m.rx.x⟩,
     ⟨m.rz.y * m.ry.x - m.rz.x * m.ry.y,
      m.rz.x * m.rx.y - m.rz.y * m.rx.x,
      m.ry.y * m.rx.x - m.ry.x * m.rx.y⟩⟩
  (ScaleMatrix r (1.0 / det), det)

/-- VectorsMixin.cpp line 209: OrthonormalizeMatrix. -/
noncomputable def OrthonormalizeMatrix (m : Matrix3x3) : Matrix3x3 :=
  let zRow := ComputeCrossProduct m.rx m.ry
  let yRow := ComputeCrossProduct zRow m.rx
  ⟨NormalizeVector m.rx, NormalizeVector yRow, NormalizeVector zRow⟩

/-- VectorsMixin.cpp line 267: CrossVectors; transpose(left) * right over the
first `rows` row vectors, divided by the row count. -/
noncomputable def CrossVectors (left right : ℕ → Vector3) (rows : ℕ) : Matrix3x3 :=
  Matrix3x3.ofFun fun i j =>
    (∑ k ∈ Finset.range rows, (left k).comp i * (right k).comp j) / (rows : ℝ)

/-- VectorsMixin.cpp line 284: BestFitTransformation, the Moore-Penrose
pseudo-inverse fit between the two delta sets. -/
noncomputable def BestFitTransformation (input output : ℕ → Vector3) (rows : ℕ) : Matrix3x3 :=
  let right := CrossVectors input output rows
  let left := CrossVectors input input rows
  let left_inverse := (InvertMatrix left).1
  MultiplyMatrices left_inverse right

/-- VectorsMixin.cpp line 379: MatrixToQuaternion, the numerically stable
four-branch variant (the DEX_IMPLEMENTATION single-formula variant is behind an
ifdef that the GripMMI build does not define). -/
noncomputable def MatrixToQuaternion (m : Matrix3x3) : Quaternion :=
  let ortho := OrthonormalizeMatrix m
  let t := ortho.rx.x + ortho.ry.y + ortho.rz.z
  if t > 0.0 then
    let r := Real.sqrt (1.0 + ortho.rx.x + ortho.ry.y + ortho.rz.z)
    let s := 0.5 / r
    { x := (ortho.ry.z - ortho.rz.y) * s
      y := (ortho.rz.x - ortho.rx.z) * s
      z := (ortho.rx.y - ortho.ry.x) * s
      m := 0.5 * r }
  else if ortho.rx.x > ortho.ry.y ∧ ortho.rx.x > ortho.rz.z then
    let r := Real.sqrt (1.0 + ortho.rx.x - ortho.ry.y - ortho.rz.z)
    let s := 0.5 / r
    { x := 0.5 * r
      m := (ortho.ry.z - ortho.rz.y) * s
      y := (ortho.ry.x + ortho.rx.y) * s
      z := (ortho.rz.x + ortho.rx.z) * s }
  else if ortho.ry.y > ortho.rz.z then
    let r := Real.sqrt (1.0 + ortho.ry.y - ortho.rx.x - ortho.rz.z)
    let s := 0.5 / r
    { y := 0.5 * r
      x := (ortho.ry.x + ortho.rx.y) * s
      m := (ortho.rz.x - ortho.rx.z) * s
      z := (ortho.rz.y + ortho.ry.z) * s }
  else
    let r := Real.sqrt (1.0 + ortho.rz.z - ortho.rx.x - ortho.ry.y)
    let s := 0.5 / r
    { z := 0.5 * r
      x := (ortho.rz.x + ortho.rx.z) * s
      y := (ortho.rz.y + ortho.ry.z) * s
      m := (ortho.rx.y - ortho.ry.x) * s }

/-- Two-argument arctangent with the C library conventions, used to model the
atan2 calls of QuaternionToCannonicalRotations. -/
noncomputable def atan2 (y x : ℝ) : ℝ :=
  if 0 < x then Real.arctan (y / x)
  else if x < 0 then
    (if 0 ≤ y then Real.arctan (y / x) + Real.pi else Real.arctan (y / x) - Real.pi)
  else
    (if 0 < y then Real.pi / 2 else if y < 0 then -(Real.pi / 2) else 0)

/-- VectorsMixin.cpp line 637: QuaternionToCannonicalRotations; the first-axis
rotation of each of three Euler decompositions (a display convenience, not a
composable Euler triple). -/
noncomputable def QuaternionToCannonicalRotations (q : Quaternion) : Vector3 :=
  ⟨atan2 (2 * (q.m * q.x + q.y * q.z)) (1.0 - (q.x * q.x + q.y * q.y)),
   atan2 (2 * (q.m * q.y + q.x * q.z)) (1.0 - (q.y * q.y + q.z * q.z)),
   atan2 (2 * (q.m * q.z + q.x * q.y)) (1.0 - (q.x * q.x + q.z * q.z))⟩

/-- Modelled from the spec: MAX_RIGID_BODY_MARKERS of VectorsMixin.h, which is
not under src/.  The spec only requires a fixed maximum above which the marker
count is silently truncated; the claims do not depend on its value. -/
def MAX_RIGID_BODY_MARKERS : ℕ := 32

/-- Result triple of ComputeRigidBodyPose: the position and orientation written
through the reference arguments, and the returned validity flag. -/
structure RigidBodyPose where
  position : Vector3
  orientation : Quaternion
  valid : Bool

/-- Sum of the first `count` vectors of `f`, as computed by the centroid and
displacement loops (CopyVector to zero, then repeated AddVectors). -/
def sumVectors (f : ℕ → Vector3) (count : ℕ) : Vector3 :=
  (List.range count).foldl (fun acc i => AddVectors acc (f i)) zeroVector

/-- VectorsMixin.cpp line 489: ComputeRigidBodyPose.  The marker sets are
modelled as index functions (the C arrays), the count as a C int, and the
optional default orientation pointer as an Option.  The dead statement
`if (N == 8) i = i;` has no effect and is omitted. -/
noncomputable def ComputeRigidBodyPose (model actual : ℕ → Vector3) (n : ℤ)
    (default_orientation : Option Quaternion) : RigidBodyPose :=
  let N : ℤ := if n > (MAX_RIGID_BODY_MARKERS : ℤ) then (MAX_RIGID_BODY_MARKERS : ℤ) else n
  if N < 3 ∧ default_orientation = none then
    { position := ⟨-999.999, -999.999, -999.999⟩
      orientation := ⟨-999.999, -999.999, -999.999, -999.999⟩
      valid := false }
  else
    let orientation : Quaternion :=
      if N > 3 then
        let Nn := N.toNat
        let model_centroid := ScaleVector (sumVectors model Nn) (1.0 / (N : ℝ))
        let actual_centroid := ScaleVector (sumVectors actual Nn) (1.0 / (N : ℝ))
        let model_delta : ℕ → Vector3 := fun i => SubtractVectors (model i) model_centroid
        let actual_delta : ℕ → Vector3 := fun i => SubtractVectors (actual i) actual_centroid
        let model_cor := ScaleVector (ComputeCrossProduct (model_delta 0) (model_delta 1))
          (VectorNorm (model_delta 0) / VectorNorm (model_delta 0) / VectorNorm (model_delta 1))
        let actual_cor := ScaleVector (ComputeCrossProduct (actual_delta 0) (actual_delta 1))
          (VectorNorm (model_delta 0) / VectorNorm (actual_delta 0) / VectorNorm (actual_delta 1))
        let model_delta2 : ℕ → Vector3 := fun i => SubtractVectors (model_delta i) model_cor
        let actual_delta2 : ℕ → Vector3 := fun i => SubtractVectors (actual_delta i) actual_cor
        MatrixToQuaternion (BestFitTransformation model_delta2 actual_delta2 Nn)
      else if N = 3 then
        let mlX := NormalizeVector (SubtractVectors (model 1) (model 0))
        let mlZ := NormalizeVector (ComputeCrossProduct mlX (SubtractVectors (model 2) (model 0)))
        let mlY := NormalizeVector (ComputeCrossProduct mlZ mlX)
        let model_local : Matrix3x3 := ⟨mlX, mlY, mlZ⟩
        let alX := NormalizeVector (SubtractVectors (actual 1) (actual 0))
        let alZ := NormalizeVector (ComputeCrossProduct alX (SubtractVectors (actual 2) (actual 0)))
        let alY := NormalizeVector (ComputeCrossProduct alZ alX)
        let actual_local : Matrix3x3 := ⟨alX, alY, alZ⟩
        let inverse := (InvertMatrix model_local).1
        MatrixToQuaternion (MultiplyMatrices inverse actual_local)
      else
        default_orientation.getD ⟨0, 0, 0, 1⟩
    let position := ScaleVector
      (sumVectors (fun i => SubtractVectors (actual i) (RotateVector orientation (model i))) N.toNat)
      (1.0 / (N : ℝ))
    { position := position, orientation := orientation, valid := true }

/-! ### DexAnalogMixin.cpp: analog derivations and the recursive filter bank -/

/-- Persistent per-instance state of DexAnalogMixin: the shared filter constant
and one filter accumulator per channel.  The ATI alignment quaternions set up
by the constructor are never read by any code under src/ and are omitted. -/
structure DexState where
  filterConstant : ℝ
  filteredManipulandumPosition : Vector3
  filteredManipulandumRotations : Vector3
  filteredLoadForce : Vector3
  filteredAcceleration : Vector3
  filteredCoP : Fin 2 → Vector3
  filteredGripForce : ℝ
  filteredNormalForce : Fin 2 → ℝ

/-- DexAnalogMixin.cpp line 31, the constructor: filter constant 100.0 and all
vector and scalar accumulators zeroed.  The member filteredNormalForce is NOT
initialized by the constructor, so its initial contents are passed in as a
parameter (indeterminate in C). -/
def initialDexState (uninitNormalForce : Fin 2 → ℝ) : DexState :=
  { filterConstant := 100
    filteredManipulandumPosition := zeroVector
    filteredManipulandumRotations := zeroVector
    filteredLoadForce := zeroVector
    filteredAcceleration := zeroVector
    filteredCoP := fun _ => zeroVector
    filteredGripForce := 0
    filteredNormalForce := uninitNormalForce }

/-- DexAnalogMixin.cpp line 69: ComputeCoP.  Returns the CoP vector written
through the reference argument, and the returned distance. -/
noncomputable def ComputeCoP (force torque : Vector3) (threshold : ℝ) : Vector3 × ℝ :=
  if |force.x| > threshold then
    let copY := - torque.z / force.x
    let copZ := - torque.y / force.x
    (⟨0.0, copY, copZ⟩, Real.sqrt (copZ * copZ + copY * copY))
  else
    (⟨MISSING_DOUBLE, MISSING_DOUBLE, MISSING_DOUBLE⟩, -1)

/-- DexAnalogMixin.cpp line 90: ComputeGripForce. -/
def ComputeGripForce (force1 force2 : Vector3) : ℝ := (force2.x - force1.x) / 2.0

/-- DexAnalogMixin.cpp line 100: ComputeLoadForce.  Returns the load vector
written through the reference argument and the returned magnitude. -/
noncomputable def ComputeLoadForce (force1 force2 : Vector3) : Vector3 × ℝ :=
  let load := AddVectors force1 force2
  (load, VectorNorm load)

/-- DexAnalogMixin.cpp line 145: FilterLoadForce.  Returns (returned magnitude,
filtered vector copied back into the argument, updated state). -/
noncomputable def FilterLoadForce (s : DexState) (load_force : Vector3) : ℝ × Vector3 × DexState :=
  let f1 := ScaleVector s.filteredLoadForce s.filterConstant
  let f2 := AddVectors f1 load_force
  let f3 := ScaleVector f2 (1.0 / (1.0 + s.filterConstant))
  (VectorNorm f3, f3, { s with filteredLoadForce := f3 })

/-- DexAnalogMixin.cpp line 155: FilterCoP for one of the two transducers. -/
noncomputable def FilterCoP (s : DexState) (which_ati : Fin 2) (center_of_pressure : Vector3) :
    ℝ × Vector3 × DexState :=
  let f1 := ScaleVector (s.filteredCoP which_ati) s.filterConstant
  let f2 := AddVectors f1 center_of_pressure
  let f3 := ScaleVector f2 (1.0 / (1.0 + s.filterConstant))
  (VectorNorm f3, f3, { s with filteredCoP := Function.update s.filteredCoP which_ati f3 })

/-- DexAnalogMixin.cpp line 165: FilterManipulandumPosition. -/
noncomputable def FilterManipulandumPosition (s : DexState) (position : Vector3) :
    ℝ × Vector3 × DexState :=
  let f1 := ScaleVector s.filteredManipulandumPosition s.filterConstant
  let f2 := AddVectors f1 position
  let f3 := ScaleVector f2 (1.0 / (1.0 + s.filterConstant))
  (VectorNorm f3, f3, { s with filteredManipulandumPosition := f3 })

/-- DexAnalogMixin.cpp line 175: FilterManipulandumRotations. -/
noncomputable def FilterManipulandumRotations (s : DexState) (rotations : Vector3) :
    ℝ × Vector3 × DexState :=
  let f1 := ScaleVector s.filteredManipulandumRotations s.filterConstant
  let f2 := AddVectors f1 rotations
  let f3 := ScaleVector f2 (1.0 / (1.0 + s.filterConstant))
  (VectorNorm f3, f3, { s with filteredManipulandumRotations := f3 })

/-- DexAnalogMixin.cpp line 185: FilterAcceleration. -/
noncomputable def FilterAcceleration (s : DexState) (acceleration : Vector3) :
    ℝ × Vector3 × DexState :=
  let f1 := ScaleVector s.filteredAcceleration s.filterConstant
  let f2 := AddVectors f1 acceleration
  let f3 := ScaleVector f2 (1.0 / (1.0 + s.filterConstant))
  (VectorNorm f3, f3, { s with filteredAcceleration := f3 })

/-- DexAnalogMixin.cpp line 197: FilterGripForce (scalar; call by value). -/
noncomputable def FilterGripForce (s : DexState) (grip_force : ℝ) : ℝ × DexState :=
  let f := (grip_force + s.filterConstant * s.filteredGripForce) / (1.0 + s.filterConstant)
  (f, { s with filteredGripForce := f })

/-- DexAnalogMixin.cpp line 204: FilterNormalForce with the sensor index guard.
The index is a C int, so it is modelled as an integer. -/
noncomputable def FilterNormalForce (s : DexState) (normal_force : ℝ) (ati : ℤ) : ℝ × DexState :=
  if h : (N_FORCE_TRANSDUCERS : ℤ) ≤ ati ∨ ati < 0 then
    (MISSING_DOUBLE, s)
  else
    have hlt : ati.toNat < N_FORCE_TRANSDUCERS := by
      simp only [not_or, not_le, not_lt] at h
      omega
    let i : Fin N_FORCE_TRANSDUCERS := ⟨ati.toNat, hlt⟩
    let f := (normal_force + s.filterConstant * s.filteredNormalForce i) /
      (1.0 + s.filterConstant)
    (f, { s with filteredNormalForce := Function.update s.filteredNormalForce i f })

/-! ### GripPackets.h: typed packet structures

The byte-level codec (GripPackets.cpp) is not under src/, so records arrive
already decoded.  Modelled from the spec: ExtractEPMTelemetryHeaderInfo,
ExtractGripRealtimeDataInfo and ExtractGripHealthAndStatusInfo produce the
typed header and payload of each fixed-size cache record. -/

/-- EPMTelemetryHeaderInfo of GripPackets.h.  Only the fields read by the code
under src/ are modelled: the sync marker, the telemetry identifier and the
16-bit telemetry counter (held as a natural number; the width only matters in
that the counter can wrap, which the code tolerates by using an inequality
test). -/
structure EPMTelemetryHeaderInfo where
  epmSyncMarker : ℕ
  TMIdentifier : ℕ
  TMCounter : ℕ

/-- Force/torque pair of one ATI transducer (the ft substructure of
ManipulandumPacket in GripPackets.h). -/
structure FTSample where
  force : Vector3
  torque : Vector3

/-- ManipulandumPacket of GripPackets.h: one sample slice. -/
structure ManipulandumPacket where
  poseTick : ℕ
  position : Vector3
  quaternion : Quaternion
  markerVisibility : Fin 2 → ℕ
  manipulandumVisibility : ℕ
  analogTick : ℕ
  ft : Fin 2 → FTSample
  acceleration : Vector3
  bestGuessPoseTimestamp : ℝ
  bestGuessAnalogTimestamp : ℝ

/-- GripRealtimeDataInfo of GripPackets.h. -/
structure GripRealtimeDataInfo where
  packetTimestamp : ℝ
  acquisitionID : ℕ
  rtPacketCount : ℕ
  dataSlice : Fin RT_SLICES_PER_PACKET → ManipulandumPacket

/-- One complete realtime-science cache record, as decoded by the codec. -/
structure RTRecord where
  header : EPMTelemetryHeaderInfo
  rt : GripRealtimeDataInfo

/-- GripHealthAndStatusInfo of GripPackets.h (the fields outside the disabled
if-0 block). -/
structure GripHealthAndStatusInfo where
  horizontalTargetFeedback : ℕ
  verticalTargetFeedback : ℕ
  toneFeedback : ℕ
  cradleDetectors : ℕ
  user : ℕ
  protocol : ℕ
  task : ℕ
  step : ℕ
  scriptEngineStatusEnum : ℕ
  iochannelStatusEnum : ℕ
  motionTrackerStatusEnum : ℕ
  crewCameraStatusEnum : ℕ
  crewCameraRate : ℕ
  runningBits : ℕ
  cpuUsage : ℕ
  memoryUsage : ℕ
  freeDiskSpaceC : ℕ
  freeDiskSpaceD : ℕ
  freeDiskSpaceE : ℕ
  crc : ℕ

/-- One complete housekeeping cache record, as decoded by the codec. -/
structure HKRecord where
  header : EPMTelemetryHeaderInfo
  hk : GripHealthAndStatusInfo

/-! ### GripMMIGlobals.h and GripMMIData.cpp: global buffers and ingestion -/

/-- Global data buffers of GripMMIGlobals, the static locals of GetGripRT
(previousTMCounter, buffers_full_alert) and the live-mode checkbox flags
touched by the buffers-full early return.  The C arrays are modelled as total
index functions, so entries beyond nFrames hold stale values exactly as the
arrays do. -/
structure GState where
  nFrames : ℕ
  ManipulandumPosition : ℕ → Vector3
  ManipulandumRotations : ℕ → Vector3
  Acceleration : ℕ → Vector3
  GripForce : ℕ → ℝ
  NormalForce : Fin 2 → ℕ → ℝ
  LoadForce : ℕ → Vector3
  LoadForceMagnitude : ℕ → ℝ
  CenterOfPressure : Fin 2 → ℕ → Vector3
  MarkerVisibility : ℕ → ℕ → ℝ
  ManipulandumVisibility : ℕ → ℝ
  FrameVisibility : ℕ → ℝ
  WristVisibility : ℕ → ℝ
  PacketReceived : ℕ → ℝ
  RealMarkerTime : ℕ → ℝ
  RealAnalogTime : ℕ → ℝ
  markerVisibilityString : Fin 2 → List Char
  dex : DexState
  previousTMCounter : ℕ
  buffers_full_alert : Bool
  dataLiveChecked : Bool
  dataLiveEnabled : Bool

/-- Marker visibility test of GetGripRT: a marker counts as visible when either
coda unit reports its bit set (lines 251, 258 and 269 of GripMMIData.cpp). -/
def markerVisibleEither (d : ManipulandumPacket) (mrk : ℕ) : Bool :=
  (d.markerVisibility 0).testBit mrk || (d.markerVisibility 1).testBit mrk

/-- GripMMIData.cpp lines 171-192: one placeholder (blank) frame written at
index nFrames during a stream break.  Exactly the channels assigned by the
source are set to MISSING_DOUBLE; RealAnalogTime, LoadForce,
LoadForceMagnitude and CenterOfPressure are not touched and keep their stale
contents.  The duplicated assignments in the source are collapsed. -/
noncomputable def writePlaceholder (g : GState) : GState :=
  let n := g.nFrames
  let missingV : Vector3 := ⟨MISSING_DOUBLE, MISSING_DOUBLE, MISSING_DOUBLE⟩
  { g with
    nFrames := n + 1
    ManipulandumPosition := Function.update g.ManipulandumPosition n missingV
    ManipulandumRotations := Function.update g.ManipulandumRotations n missingV
    GripForce := Function.update g.GripForce n MISSING_DOUBLE
    NormalForce := fun ati => Function.update (g.NormalForce ati) n MISSING_DOUBLE
    Acceleration := Function.update g.Acceleration n missingV
    MarkerVisibility := Function.update g.MarkerVisibility n
      (fun mrk => if mrk < CODA_MARKERS then MISSING_DOUBLE else g.MarkerVisibility n mrk)
    ManipulandumVisibility := Function.update g.ManipulandumVisibility n MISSING_DOUBLE
    FrameVisibility := Function.update g.FrameVisibility n MISSING_DOUBLE
    WristVisibility := Function.update g.WristVisibility n MISSING_DOUBLE
    PacketReceived := Function.update g.PacketReceived n MISSING_DOUBLE
    RealMarkerTime := Function.update g.RealMarkerTime n MISSING_DOUBLE }

/-- GripMMIData.cpp line 170: the stream-break insertion loop.  Inserts
placeholder frames while count < MAX_PLOT_STEP and nFrames < MAX_FRAMES - 1. -/
noncomputable def insertBreakLoop (g : GState) (count : ℕ) : GState :=
  if h : count < MAX_PLOT_STEP ∧ g.nFrames < MAX_FRAMES - 1 then
    insertBreakLoop (writePlaceholder g) (count + 1)
  else g
termination_by MAX_PLOT_STEP - count
decreasing_by omega

/-- GripMMIData.cpp lines 197-282: processing of one sample slice at index
nFrames.  Consecutive writes to the same buffer slot are collapsed to the
final value (the source first stores the raw quantity and then overwrites the
slot with the filtered value, because the vector filters copy their output
back into the argument).  Casts to float are the identity in this model, and
the finiteness test on the canonical rotations (line 211) always holds over
the real numbers. -/
noncomputable def processSlice (g : GState) (d : ManipulandumPacket) : GState :=
  let n := g.nFrames
  let pose :=
    if d.manipulandumVisibility ≠ 0 then
      let pos0 : Vector3 := ⟨d.position.x / 10.0, d.position.y / 10.0, d.position.z / 10.0⟩
      let rot0 := QuaternionToCannonicalRotations d.quaternion
      let pRes := FilterManipulandumPosition g.dex pos0
      let rRes := FilterManipulandumRotations pRes.2.2 rot0
      (pRes.2.1, rRes.2.1, rRes.2.2)
    else
      ((⟨MISSING_DOUBLE, MISSING_DOUBLE, MISSING_DOUBLE⟩ : Vector3),
       (⟨MISSING_DOUBLE, MISSING_DOUBLE, MISSING_DOUBLE⟩ : Vector3), g.dex)
  let dex1 := pose.2.2
  let gf0 := ComputeGripForce ((d.ft LEFT_ATI).force) ((d.ft RIGHT_ATI).force)
  let gfRes := FilterGripForce dex1 gf0
  let nfLRes := FilterNormalForce gfRes.2 (- (d.ft LEFT_ATI).force.x) 0
  let nfRRes := FilterNormalForce nfLRes.2 ((d.ft RIGHT_ATI).force.x) 1
  let load0 := (ComputeLoadForce ((d.ft 0).force) ((d.ft 1).force)).1
  let lfRes := FilterLoadForce nfRRes.2 load0
  let copL := ComputeCoP ((d.ft 0).force) ((d.ft 0).torque) COP_MIN_GRIP
  let copLRes :=
    if copL.2 ≥ 0.0 then
      let r := FilterCoP lfRes.2.2 0 copL.1
      (r.2.1, r.2.2)
    else (copL.1, lfRes.2.2)
  let copR := ComputeCoP ((d.ft 1).force) ((d.ft 1).torque) COP_MIN_GRIP
  let copRRes :=
    if copR.2 ≥ 0.0 then
      let r := FilterCoP copLRes.2 1 copR.1
      (r.2.1, r.2.2)
    else (copR.1, copLRes.2)
  let accRes := FilterAcceleration copRRes.2 d.acceleration
  let frameCount := (List.range 4).countP (fun i => markerVisibleEither d (FRAME_FIRST_MARKER + i))
  let wristCount := (List.range 8).countP (fun i => markerVisibleEither d (WRIST_FIRST_MARKER + i))
  let markerRow : ℕ → ℝ := fun mrk =>
    if mrk ≤ MANIPULANDUM_LAST_MARKER then
      (if markerVisibleEither d mrk then (mrk : ℝ) + 1 else MISSING_DOUBLE)
    else if mrk ≤ FRAME_LAST_MARKER then
      (if markerVisibleEither d mrk then (mrk : ℝ) + 3 else MISSING_DOUBLE)
    else if mrk ≤ WRIST_LAST_MARKER then
      (if markerVisibleEither d mrk then (mrk : ℝ) + 5 else MISSING_DOUBLE)
    else g.MarkerVisibility n mrk
  { g with
    nFrames := n + 1
    RealMarkerTime := Function.update g.RealMarkerTime n d.bestGuessPoseTimestamp
    RealAnalogTime := Function.update g.RealAnalogTime n d.bestGuessAnalogTimestamp
    ManipulandumPosition := Function.update g.ManipulandumPosition n pose.1
    ManipulandumRotations := Function.update g.ManipulandumRotations n pose.2.1
    GripForce := Function.update g.GripForce n gfRes.1
    NormalForce := fun ati =>
      Function.update (g.NormalForce ati) n (if ati = LEFT_ATI then nfLRes.1 else nfRRes.1)
    LoadForce := Function.update g.LoadForce n lfRes.2.1
    LoadForceMagnitude := Function.update g.LoadForceMagnitude n lfRes.1
    CenterOfPressure := fun ati =>
      Function.update (g.CenterOfPressure ati) n (if ati = LEFT_ATI then copLRes.1 else copRRes.1)
    Acceleration := Function.update g.Acceleration n accRes.2.1
    MarkerVisibility := Function.update g.MarkerVisibility n markerRow
    ManipulandumVisibility := Function.update g.ManipulandumVisibility n
      (if d.manipulandumVisibility.testBit 0 then 10.0 else MISSING_DOUBLE)
    FrameVisibility := Function.update g.FrameVisibility n
      (if frameCount = 4 then 30.0 else MISSING_DOUBLE)
    WristVisibility := Function.update g.WristVisibility n
      (if wristCount ≥ 3 then 50.0 else MISSING_DOUBLE)
    PacketReceived := Function.update g.PacketReceived n (-10.0)
    dex := accRes.2.2 }

/-- GripMMIData.cpp line 197: the slice loop over the ten slices of one
packet, guarded at each step by nFrames < MAX_FRAMES. -/
noncomputable def sliceLoop (g : GState) (rt : GripRealtimeDataInfo) : GState :=
  (List.finRange RT_SLICES_PER_PACKET).foldl
    (fun acc slice =>
      if acc.nFrames < MAX_FRAMES then processSlice acc (rt.dataSlice slice) else acc) g

/-- GripMMIData.cpp lines 163-282: processing of one decoded realtime packet,
given the timestamp of the previous one: stream-break insertion when the gap
exceeds the threshold, then the slice loop. -/
noncomputable def processPacket (g : GState) (previous_packet_timestamp : ℝ)
    (rt : GripRealtimeDataInfo) : GState :=
  let g1 :=
    if rt.packetTimestamp - previous_packet_timestamp > PACKET_STREAM_BREAK_THRESHOLD then
      insertBreakLoop g 0
    else g
  sliceLoop g1 rt

/-- Outcome of one GetGripRT call.  The three exit constructors model the
process-terminating exit() calls at the distinct fatal sites (failed open,
unrecognized packet, failed close); ret carries the int returned to the
caller. -/
inductive RTOutcome where
  | openFailExit : RTOutcome
  | badPacketExit : RTOutcome
  | closeFailExit (code : ℤ) : RTOutcome
  | ret (code : ℤ) : RTOutcome
deriving DecidableEq

/-- Environment of one GetGripRT call: whether each open attempt fails (the
cache can be transiently locked by the writer), the decoded records of the
cache file (a short read after the last one ends the loop; read errors are
not modelled), the close result, and the indeterminate contents of the
uninitialized locals that are read when the file holds no packet. -/
structure RTEnv where
  openFails : ℕ → Bool
  records : List RTRecord
  closeResult : ℤ
  uninitHeader : EPMTelemetryHeaderInfo
  uninitRt : GripRealtimeDataInfo

/-- GripMMIData.cpp line 114 (and line 401): the open retry loop, one recursive
step per loop iteration.  Returns the index of the first successful attempt, or
none when retry_count reaches MAX_OPEN_CACHE_RETRIES with every attempt
failed.  The fixed Sleep pause between attempts is real time and is not
modelled. -/
def openLoop (openFails : ℕ → Bool) (retry_count : ℕ) : Option ℕ :=
  if h : retry_count < MAX_OPEN_CACHE_RETRIES then
    if openFails retry_count then openLoop openFails (retry_count + 1)
    else some retry_count
  else none
termination_by MAX_OPEN_CACHE_RETRIES - retry_count
decreasing_by omega

/-- Result of the whole retry loop, entered at retry_count = 0. -/
def firstOpenSuccess (openFails : ℕ → Bool) : Option ℕ := openLoop openFails 0

/-- Number of _sopen calls performed by the retry loop: one per failed attempt
up to and including the first success, and MAX_OPEN_CACHE_RETRIES when every
attempt fails. -/
def openAttempts (openFails : ℕ → Bool) : ℕ :=
  match firstOpenSuccess openFails with
  | some i => i + 1
  | none => MAX_OPEN_CACHE_RETRIES

/-- State threaded through the packet reading loop of GetGripRT: the globals,
the previous packet timestamp (local, initialized to zero so that the first
packet is seen as arriving after a long delay), and the last extracted header
and realtime payload (locals read after the loop). -/
structure ReadState where
  g : GState
  prevTs : ℝ
  lastHeader : Option EPMTelemetryHeaderInfo
  lastRt : Option GripRealtimeDataInfo

/-- GripMMIData.cpp lines 136-284: the packet reading loop.  Reads records
while nFrames < MAX_FRAMES; the header of each record is extracted and validated
(sync marker and realtime identifier), with a mismatch fatal; then the packet
is processed.  The error value carries the state at the fatal exit. -/
noncomputable def readLoop : List RTRecord → ReadState → Except (RTOutcome × GState) ReadState
  | [], st => .ok st
  | r :: rest, st =>
    if st.g.nFrames < MAX_FRAMES then
      let st1 : ReadState := { st with lastHeader := some r.header }
      if r.header.epmSyncMarker ≠ EPM_TELEMETRY_SYNC_VALUE ∨ r.header.TMIdentifier ≠ GRIP_RT_ID then
        .error (.badPacketExit, st1.g)
      else
        let g1 := processPacket st1.g st1.prevTs r.rt
        readLoop rest
          { g := g1, prevTs := r.rt.packetTimestamp, lastHeader := some r.header,
            lastRt := some r.rt }
    else .ok st

/-- GripMMIData.cpp lines 292-299: the marker visibility string of one coda
unit, built from the visibility mask of the last slice of the last packet
read: two blanks before markers 8 and 12, then a u for a visible marker and
an m for an obscured one. -/
def visString (mv : ℕ) : List Char :=
  (List.range CODA_MARKERS).foldl
    (fun acc mrk =>
      let acc2 := if mrk = 8 ∨ mrk = 12 then acc ++ [' ', ' '] else acc
      if mv.testBit mrk then acc2 ++ ['u'] else acc2 ++ ['m']) []

/-- Telemetry counter against which previousTMCounter is compared at the end
of the pass: the counter of the most recently extracted header, or, when the
file held no packet, the indeterminate contents of the uninitialized local
header (undefined behaviour in the source). -/
noncomputable def passLastTMCounter (env : RTEnv) (s : GState) : ℕ :=
  match readLoop env.records
      { g := { s with nFrames := 0 }, prevTs := 0.0, lastHeader := none, lastRt := none } with
  | .ok st => (st.lastHeader.getD env.uninitHeader).TMCounter
  | .error _ => 0

/-- GripMMIData.cpp line 70: GetGripRT.  Returns the outcome and the new
global state. -/
noncomputable def GetGripRT (env : RTEnv) (s : GState) : RTOutcome × GState :=
  if s.buffers_full_alert then
    (.ret cFALSE, { s with dataLiveChecked := false, dataLiveEnabled := false })
  else
    let s1 := { s with nFrames := 0 }
    match firstOpenSuccess env.openFails with
    | none => (.openFailExit, s1)
    | some _ =>
      match readLoop env.records { g := s1, prevTs := 0.0, lastHeader := none, lastRt := none } with
      | .error e => e
      | .ok st =>
        if env.closeResult ≠ 0 then (.closeFailExit env.closeResult, st.g)
        else
          let rtLast := st.lastRt.getD env.uninitRt
          let lastSlice := rtLast.dataSlice ⟨RT_SLICES_PER_PACKET - 1, by decide⟩
          let g1 := { st.g with
            markerVisibilityString := fun coda => visString (lastSlice.markerVisibility coda) }
          let g2 :=
            if MAX_FRAMES ≤ g1.nFrames then { g1 with buffers_full_alert := true } else g1
          let lastTM := (st.lastHeader.getD env.uninitHeader).TMCounter
          if g2.previousTMCounter ≠ lastTM then
            (.ret cTRUE, { g2 with previousTMCounter := lastTM })
          else (.ret cFALSE, g2)

/-! ### GripMMIData.cpp: GetLatestGripHK -/

/-- Outcome of one GetLatestGripHK call, built like RTOutcome. -/
inductive HKOutcome where
  | openFailExit : HKOutcome
  | badPacketExit : HKOutcome
  | closeFailExit (code : ℤ) : HKOutcome
  | ret (code : ℤ) : HKOutcome
deriving DecidableEq

/-- Environment of one GetLatestGripHK call, built like RTEnv for the
housekeeping cache file. -/
structure HKEnv where
  openFails : ℕ → Bool
  records : List HKRecord
  closeResult : ℤ
  uninitHeader : EPMTelemetryHeaderInfo

/-- GripMMIData.cpp lines 419-438: the housekeeping reading loop.  Each record
is extracted into the header local and validated (sync marker and housekeeping
identifier, a mismatch fatal), then its payload overwrites the hk output; at
the end the hk output holds the last valid packet. -/
def hkLoop : List HKRecord → Option EPMTelemetryHeaderInfo → GripHealthAndStatusInfo →
    Except HKOutcome (Option EPMTelemetryHeaderInfo × GripHealthAndStatusInfo)
  | [], lastHeader, hk => .ok (lastHeader, hk)
  | r :: rest, _, _ =>
    if r.header.epmSyncMarker ≠ EPM_TELEMETRY_SYNC_VALUE ∨ r.header.TMIdentifier ≠ GRIP_HK_ID then
      .error .badPacketExit
    else
      hkLoop rest (some r.header) r.hk

/-- GripMMIData.cpp line 378: GetLatestGripHK.  The static previousTMCounter
(separate from the one of GetGripRT) is threaded explicitly, and the hk output
parameter enters with its previous (possibly indeterminate) contents and
leaves with the last valid packet read, unchanged when no packet was read. -/
def GetLatestGripHK (env : HKEnv) (previousTMCounter : ℕ) (hk0 : GripHealthAndStatusInfo) :
    HKOutcome × ℕ × GripHealthAndStatusInfo :=
  match firstOpenSuccess env.openFails with
  | none => (.openFailExit, previousTMCounter, hk0)
  | some _ =>
    match hkLoop env.records none hk0 with
    | .error e => (e, previousTMCounter, hk0)
    | .ok (lastHeader, hk1) =>
      if env.closeResult ≠ 0 then (.closeFailExit env.closeResult, previousTMCounter, hk1)
      else
        let lastTM := (lastHeader.getD env.uninitHeader).TMCounter
        if previousTMCounter ≠ lastTM then (.ret cTRUE, lastTM, hk1)
        else (.ret cFALSE, previousTMCounter, hk1)

/-! ### Example values used by witnesses and counterexamples -/

/-- Concrete DexAnalogMixin instance as built by the constructor, with the
uninitialized normal-force accumulators taken as zero. -/
noncomputable def exampleDex : DexState := initialDexState (fun _ => 0)

/-! ### Claim C3: centre of pressure -/

/-- C3: for along-axis force magnitude at or below the threshold, ComputeCoP
writes the missing sentinel into all three CoP coordinates and returns the
negative distance -1; for magnitude strictly above the threshold it writes
copY = -torqueZ/forceX, copZ = -torqueY/forceX, copX = 0, and returns the
nonnegative Euclidean distance of that point from the origin. -/
theorem ComputeCoP_spec (force torque : Vector3) (threshold : ℝ) :
    (|force.x| ≤ threshold →
      ComputeCoP force torque threshold =
        (⟨MISSING_DOUBLE, MISSING_DOUBLE, MISSING_DOUBLE⟩, -1) ∧
      (ComputeCoP force torque threshold).2 < 0) ∧
    (threshold < |force.x| →
      (ComputeCoP force torque threshold).1 =
        ⟨0.0, - torque.z / force.x, - torque.y / force.x⟩ ∧
      (ComputeCoP force torque threshold).2 =
        Real.sqrt ((ComputeCoP force torque threshold).1.x ^ 2 +
          (ComputeCoP force torque threshold).1.y ^ 2 +
          (ComputeCoP force torque threshold).1.z ^ 2) ∧
      0 ≤ (ComputeCoP force torque threshold).2) := by
  constructor
  · intro hle
    have h : ¬ |force.x| > threshold := not_lt.mpr hle
    rw [ComputeCoP, if_neg h]
    exact ⟨rfl, by norm_num⟩
  · intro hlt
    have h : |force.x| > threshold := hlt
    have hpair : ComputeCoP force torque threshold =
        (⟨0.0, - torque.z / force.x, - torque.y / force.x⟩,
          Real.sqrt ((- torque.y / force.x) * (- torque.y / force.x) +
            (- torque.z / force.x) * (- torque.z / force.x))) := by
      rw [ComputeCoP, if_pos h]
    rw [hpair]
    refine ⟨rfl, ?_, Real.sqrt_nonneg _⟩
    show Real.sqrt ((- torque.y / force.x) * (- torque.y / force.x) +
        (- torque.z / force.x) * (- torque.z / force.x)) =
      Real.sqrt ((0.0 : ℝ) ^ 2 + (- torque.z / force.x) ^ 2 + (- torque.y / force.x) ^ 2)
    rw [show ((0.0 : ℝ) ^ 2 + (- torque.z / force.x) ^ 2 + (- torque.y / force.x) ^ 2) =
        (- torque.y / force.x) * (- torque.y / force.x) +
          (- torque.z / force.x) * (- torque.z / force.x) from by ring]

/-- Witness for C3: both branches of the specification at concrete inputs. -/
theorem ComputeCoP_spec_witness :
    ComputeCoP ⟨0.2, 0, 0⟩ ⟨0, 0, 0⟩ COP_MIN_GRIP =
      (⟨MISSING_DOUBLE, MISSING_DOUBLE, MISSING_DOUBLE⟩, -1) ∧
    (ComputeCoP ⟨2, 0, 0⟩ ⟨0, -3, -4⟩ 1).1 = ⟨0.0, 2, 3 / 2⟩ := by
  constructor
  · refine ((ComputeCoP_spec ⟨0.2, 0, 0⟩ ⟨0, 0, 0⟩ COP_MIN_GRIP).1 ?_).1
    show |(0.2 : ℝ)| ≤ COP_MIN_GRIP
    rw [abs_of_nonneg (by norm_num : (0 : ℝ) ≤ 0.2), COP_MIN_GRIP]
    norm_num
  · have hgt : (1 : ℝ) < |((⟨2, 0, 0⟩ : Vector3)).x| := by
      show (1 : ℝ) < |(2 : ℝ)|
      rw [abs_of_nonneg (by norm_num : (0 : ℝ) ≤ 2)]
      norm_num
    rw [((ComputeCoP_spec ⟨2, 0, 0⟩ ⟨0, -3, -4⟩ 1).2 hgt).1]
    rw [Vector3.mk.injEq]
    norm_num

/-! ### Claim C9: per-sensor normal force filter -/

/-- C9: FilterNormalForce returns the missing sentinel and leaves every filter
accumulator unchanged for a sensor index outside the valid range; for a valid
index it updates and returns only the accumulator of that sensor. -/
theorem FilterNormalForce_spec (s : DexState) (x : ℝ) :
    (∀ ati : ℤ, ((N_FORCE_TRANSDUCERS : ℤ) ≤ ati ∨ ati < 0) →
        FilterNormalForce s x ati = (MISSING_DOUBLE, s)) ∧
    (∀ i : Fin N_FORCE_TRANSDUCERS,
        (FilterNormalForce s x ((i : ℕ) : ℤ)).1 =
          (x + s.filterConstant * s.filteredNormalForce i) / (1.0 + s.filterConstant) ∧
        (FilterNormalForce s x ((i : ℕ) : ℤ)).2 =
          { s with filteredNormalForce :=
                     Function.update s.filteredNormalForce i
                       ((FilterNormalForce s x ((i : ℕ) : ℤ)).1) } ∧
        (∀ j : Fin N_FORCE_TRANSDUCERS, j ≠ i →
          (FilterNormalForce s x ((i : ℕ) : ℤ)).2.filteredNormalForce j =
            s.filteredNormalForce j)) := by
  have hbody : ∀ i : Fin N_FORCE_TRANSDUCERS,
      FilterNormalForce s x ((i : ℕ) : ℤ) =
        ((x + s.filterConstant * s.filteredNormalForce i) / (1.0 + s.filterConstant),
          { s with filteredNormalForce :=
                     Function.update s.filteredNormalForce i
                       ((x + s.filterConstant * s.filteredNormalForce i) /
                         (1.0 + s.filterConstant)) }) := by
    intro i
    have hi := i.isLt
    have hcond : ¬ ((N_FORCE_TRANSDUCERS : ℤ) ≤ ((i : ℕ) : ℤ) ∨ ((i : ℕ) : ℤ) < 0) := by
      push_neg
      exact ⟨by exact_mod_cast hi, Int.natCast_nonneg _⟩
    rw [FilterNormalForce, dif_neg hcond]
    simp only [Int.toNat_natCast, Fin.eta]
  refine ⟨fun ati h => by rw [FilterNormalForce, dif_pos h], fun i => ?_⟩
  rw [hbody i]
  refine ⟨rfl, rfl, fun j hj => ?_⟩
  exact Function.update_noteq hj _ _

/-- Witness for C9: an out-of-range index is rejected without touching the
state, and a valid index leaves the accumulator of the other sensor unchanged. -/
theorem FilterNormalForce_spec_witness :
    FilterNormalForce exampleDex 3 5 = (MISSING_DOUBLE, exampleDex) ∧
    (FilterNormalForce exampleDex 3 ((LEFT_ATI : ℕ) : ℤ)).2.filteredNormalForce RIGHT_ATI =
      exampleDex.filteredNormalForce RIGHT_ATI := by
  constructor
  · exact (FilterNormalForce_spec exampleDex 3).1 5 (by norm_num [N_FORCE_TRANSDUCERS])
  · exact ((FilterNormalForce_spec exampleDex 3).2 LEFT_ATI).2.2 RIGHT_ATI (by decide)

/-! ### Claim C6: the recursive filter bank -/

/-- Numeric literal bridge between the source spelling 1.0 and the numeral 1. -/
lemma one_point_zero : (1.0 : ℝ) = 1 := by norm_num

/-- C6: each filter update computes filtered = (new + k * previous)/(1 + k)
(scalar grip-force channel, and the vector load-force channel componentwise);
a filtered value equal to the input is a fixed point; k = 0 is a pass-through;
and repeatedly feeding the same constant makes the filtered output converge to
that constant from any initial state, for every smoothing constant k ≥ 0. -/
theorem recursiveFilter_spec (s : DexState) (x c : ℝ) (v : Vector3)
    (hk : 0 ≤ s.filterConstant) :
    (FilterGripForce s x).1 =
      (x + s.filterConstant * s.filteredGripForce) / (1 + s.filterConstant) ∧
    (FilterLoadForce s v).2.1 =
      (⟨(v.x + s.filterConstant * s.filteredLoadForce.x) / (1 + s.filterConstant),
        (v.y + s.filterConstant * s.filteredLoadForce.y) / (1 + s.filterConstant),
        (v.z + s.filterConstant * s.filteredLoadForce.z) / (1 + s.filterConstant)⟩ : Vector3) ∧
    (s.filteredGripForce = x → (FilterGripForce s x).1 = x) ∧
    (s.filterConstant = 0 → (FilterGripForce s x).1 = x) ∧
    Filter.Tendsto
      (fun nn => ((fun t => (FilterGripForce t c).2)^[nn] s).filteredGripForce)
      Filter.atTop (nhds c) := by
  have h1k : (0 : ℝ) < 1 + s.filterConstant := by linarith
  have h1k' : (1 : ℝ) + s.filterConstant ≠ 0 := ne_of_gt h1k
  refine ⟨?_, ?_, ?_, ?_, ?_⟩
  · show (x + s.filterConstant * s.filteredGripForce) / (1.0 + s.filterConstant) = _
    rw [one_point_zero]
  · show ScaleVector (AddVectors (ScaleVector s.filteredLoadForce s.filterConstant) v)
        (1.0 / (1.0 + s.filterConstant)) = _
    simp only [ScaleVector, AddVectors]
    rw [Vector3.mk.injEq, one_point_zero]
    exact ⟨by ring, by ring, by ring⟩
  · intro hfx
    show (x + s.filterConstant * s.filteredGripForce) / (1.0 + s.filterConstant) = x
    rw [hfx, one_point_zero]
    field_simp
    ring
  · intro h0
    show (x + s.filterConstant * s.filteredGripForce) / (1.0 + s.filterConstant) = x
    rw [h0, one_point_zero]
    norm_num
  · set k := s.filterConstant with hkdef
    set F : DexState → DexState := fun t => (FilterGripForce t c).2 with hF
    have hFconst : ∀ t : DexState, (F t).filterConstant = t.filterConstant := fun t => rfl
    have hFval : ∀ t : DexState, (F t).filteredGripForce =
        (c + t.filterConstant * t.filteredGripForce) / (1.0 + t.filterConstant) := fun t => rfl
    have hconst : ∀ nn : ℕ, (F^[nn] s).filterConstant = k := by
      intro nn
      induction nn with
      | zero => rfl
      | succ m ih => rw [Function.iterate_succ_apply', hFconst, ih]
    set r := k / (1 + k) with hr
    have hr0 : 0 ≤ r := div_nonneg hk (le_of_lt h1k)
    have hr1 : r < 1 := by
      rw [hr, div_lt_one h1k]
      linarith
    have step : ∀ y : ℝ, (c + k * y) / (1 + k) - c = r * (y - c) := by
      intro y
      rw [hr]
      field_simp
      ring
    have key : ∀ nn : ℕ, (F^[nn] s).filteredGripForce - c =
        r ^ nn * (s.filteredGripForce - c) := by
      intro nn
      induction nn with
      | zero => simp
      | succ m ih =>
        rw [Function.iterate_succ_apply', hFval, hconst m, pow_succ, one_point_zero,
          step ((F^[m] s).filteredGripForce), ih]
        ring
    have heq : (fun nn => (F^[nn] s).filteredGripForce) =
        fun nn => c + r ^ nn * (s.filteredGripForce - c) := by
      funext nn
      linarith [key nn]
    rw [heq]
    have hlim : Filter.Tendsto (fun nn : ℕ => r ^ nn) Filter.atTop (nhds 0) :=
      tendsto_pow_atTop_nhds_zero_of_lt_one hr0 hr1
    have hlim2 := (hlim.mul_const (s.filteredGripForce - c)).const_add c
    simpa using hlim2

/-- Witness for C6: the fixed-point part at a concrete state with the default
filter constant 100. -/
theorem recursiveFilter_spec_witness :
    (FilterGripForce { exampleDex with filteredGripForce := 7 } 7).1 = 7 :=
  (recursiveFilter_spec { exampleDex with filteredGripForce := 7 } 7 0 zeroVector
    (by norm_num [exampleDex, initialDexState])).2.2.1 rfl

/-! ### Claim C7: pose estimator with fewer than three markers -/

/-- C7: ComputeRigidBodyPose with fewer than 3 markers and no default
orientation reports failure and writes the sentinel -999.999 into every
component of the output position and orientation. -/
theorem ComputeRigidBodyPose_underdetermined (model actual : ℕ → Vector3) (n : ℤ)
    (h : n < 3) :
    ComputeRigidBodyPose model actual n none =
      { position := ⟨-999.999, -999.999, -999.999⟩
        orientation := ⟨-999.999, -999.999, -999.999, -999.999⟩
        valid := false } := by
  have h32 : ¬ n > (MAX_RIGID_BODY_MARKERS : ℤ) := by
    have : (MAX_RIGID_BODY_MARKERS : ℤ) = 32 := rfl
    omega
  rw [ComputeRigidBodyPose]
  simp only [if_neg h32]
  rw [if_pos ⟨h, trivial⟩]

/-- Witness for C7: two markers and no default orientation yield the sentinel
invalid pose. -/
theorem ComputeRigidBodyPose_underdetermined_witness :
    ComputeRigidBodyPose (fun _ => zeroVector) (fun _ => zeroVector) 2 none =
      { position := ⟨-999.999, -999.999, -999.999⟩
        orientation := ⟨-999.999, -999.999, -999.999, -999.999⟩
        valid := false } :=
  ComputeRigidBodyPose_underdetermined (fun _ => zeroVector) (fun _ => zeroVector) 2
    (by norm_num)

/-! ### More example values for the pipeline claims -/

/-- Concrete valid realtime header. -/
def exampleHeader : EPMTelemetryHeaderInfo :=
  { epmSyncMarker := EPM_TELEMETRY_SYNC_VALUE, TMIdentifier := GRIP_RT_ID, TMCounter := 5 }

/-- Concrete all-zero sample slice with the manipulandum not visible. -/
noncomputable def exampleSlice : ManipulandumPacket :=
  { poseTick := 0, position := zeroVector, quaternion := ⟨0, 0, 0, 1⟩
    markerVisibility := fun _ => 0, manipulandumVisibility := 0, analogTick := 0
    ft := fun _ => ⟨zeroVector, zeroVector⟩, acceleration := zeroVector
    bestGuessPoseTimestamp := 0, bestGuessAnalogTimestamp := 0 }

/-- Concrete realtime payload with timestamp 2 (a stream break after the
initial previous-timestamp of zero). -/
noncomputable def exampleRt : GripRealtimeDataInfo :=
  { packetTimestamp := 2, acquisitionID := 0, rtPacketCount := 0
    dataSlice := fun _ => exampleSlice }

/-- Concrete global state: empty buffers, zeroed arrays, freshly constructed
filter bank, previous counter 5, alert flag clear. -/
noncomputable def exampleGState : GState :=
  { nFrames := 0
    ManipulandumPosition := fun _ => zeroVector
    ManipulandumRotations := fun _ => zeroVector
    Acceleration := fun _ => zeroVector
    GripForce := fun _ => 0
    NormalForce := fun _ _ => 0
    LoadForce := fun _ => zeroVector
    LoadForceMagnitude := fun _ => 0
    CenterOfPressure := fun _ _ => zeroVector
    MarkerVisibility := fun _ _ => 0
    ManipulandumVisibility := fun _ => 0
    FrameVisibility := fun _ => 0
    WristVisibility := fun _ => 0
    PacketReceived := fun _ => 0
    RealMarkerTime := fun _ => 0
    RealAnalogTime := fun _ => 0
    markerVisibilityString := fun _ => visString 0
    dex := exampleDex
    previousTMCounter := 5
    buffers_full_alert := false
    dataLiveChecked := true
    dataLiveEnabled := true }

/-- Environment in which every open attempt fails (persistently locked cache). -/
noncomputable def envAllFail : RTEnv :=
  { openFails := fun _ => true, records := [], closeResult := 0
    uninitHeader := exampleHeader, uninitRt := exampleRt }

/-! ### Open retry loop lemmas -/

lemma openLoop_none (fails : ℕ → Bool) :
    ∀ d kk, MAX_OPEN_CACHE_RETRIES - kk = d →
      (∀ m, kk ≤ m → m < MAX_OPEN_CACHE_RETRIES → fails m = true) →
      openLoop fails kk = none := by
  have hM : MAX_OPEN_CACHE_RETRIES = 5 := rfl
  intro d
  induction d with
  | zero =>
    intro kk hd _
    rw [openLoop, dif_neg (by omega)]
  | succ d ih =>
    intro kk hd h
    have hklt : kk < MAX_OPEN_CACHE_RETRIES := by omega
    rw [openLoop, dif_pos hklt, if_pos (h kk le_rfl hklt)]
    exact ih (kk + 1) (by omega) (fun m hm hmlt => h m (by omega) hmlt)

lemma openLoop_some_le (fails : ℕ → Bool) (i : ℕ) (hiM : i < MAX_OPEN_CACHE_RETRIES)
    (hsucc : fails i = false) :
    ∀ d kk, i - kk = d → kk ≤ i → ∃ j, openLoop fails kk = some j ∧ j ≤ i := by
  intro d
  induction d with
  | zero =>
    intro kk hd hki
    have hkk : kk = i := by omega
    subst hkk
    refine ⟨kk, ?_, le_rfl⟩
    rw [openLoop, dif_pos hiM, if_neg (by simp [hsucc])]
  | succ d ih =>
    intro kk hd hki
    have hklt : kk < MAX_OPEN_CACHE_RETRIES := by omega
    rw [openLoop, dif_pos hklt]
    cases hB : fails kk with
    | true =>
      rw [if_pos rfl]
      exact ih (kk + 1) (by omega) (by omega)
    | false =>
      rw [if_neg (by decide)]
      exact ⟨kk, rfl, by omega⟩

lemma openLoop_some_lt (fails : ℕ → Bool) :
    ∀ d kk j, MAX_OPEN_CACHE_RETRIES - kk = d → openLoop fails kk = some j →
      j < MAX_OPEN_CACHE_RETRIES := by
  intro d
  induction d with
  | zero =>
    intro kk j hd h
    rw [openLoop, dif_neg (by omega)] at h
    exact absurd h (by simp)
  | succ d ih =>
    intro kk j hd h
    have hklt : kk < MAX_OPEN_CACHE_RETRIES := by omega
    rw [openLoop, dif_pos hklt] at h
    cases hB : fails kk with
    | true =>
      rw [if_pos hB] at h
      exact ih (kk + 1) j (by omega) h
    | false =>
      rw [if_neg (by simp [hB])] at h
      have hj : kk = j := by simpa using h
      omega

/-- Any fatal error raised inside the packet reading loop is the unrecognized
packet exit; the loop raises no other fatal condition. -/
lemma readLoop_error_shape :
    ∀ recs st out g', readLoop recs st = .error (out, g') →
      out = RTOutcome.badPacketExit := by
  intro recs
  induction recs with
  | nil =>
    intro st out g' h
    rw [readLoop] at h
    exact absurd h (by simp)
  | cons r rest ih =>
    intro st out g' h
    rw [readLoop] at h
    by_cases hfull : st.g.nFrames < MAX_FRAMES
    · rw [if_pos hfull] at h
      by_cases hbad : r.header.epmSyncMarker ≠ EPM_TELEMETRY_SYNC_VALUE ∨
          r.header.TMIdentifier ≠ GRIP_RT_ID
      · rw [if_pos hbad] at h
        injection h with h2
        injection h2 with h3 h4
        exact h3.symm
      · rw [if_neg hbad] at h
        exact ih _ out g' h
    · rw [if_neg hfull] at h
      exact absurd h (by simp)

/-! ### Claim C8: open retry exhaustion -/

/-- C8: with the alert flag clear, persistent open failure makes GetGripRT
perform exactly MAX_OPEN_CACHE_RETRIES open attempts and escalate fatally via
the open-failure exit; any successful attempt yields no open-failure
escalation, with the attempt count capped at the first success and never
exceeding MAX_OPEN_CACHE_RETRIES. -/
theorem openRetry_spec (env : RTEnv) (s : GState) (hAlert : s.buffers_full_alert = false) :
    ((∀ i, i < MAX_OPEN_CACHE_RETRIES → env.openFails i = true) →
      openAttempts env.openFails = MAX_OPEN_CACHE_RETRIES ∧
      (GetGripRT env s).1 = RTOutcome.openFailExit) ∧
    (∀ i, i < MAX_OPEN_CACHE_RETRIES → env.openFails i = false →
      (GetGripRT env s).1 ≠ RTOutcome.openFailExit ∧
      openAttempts env.openFails ≤ i + 1) ∧
    openAttempts env.openFails ≤ MAX_OPEN_CACHE_RETRIES := by
  have halertneg : ¬ (s.buffers_full_alert = true) := by simp [hAlert]
  refine ⟨?_, ?_, ?_⟩
  · intro hAll
    have hnone : firstOpenSuccess env.openFails = none :=
      openLoop_none env.openFails MAX_OPEN_CACHE_RETRIES 0 rfl
        (fun m _ hmlt => hAll m hmlt)
    constructor
    · rw [openAttempts, hnone]
    · rw [GetGripRT, if_neg halertneg, hnone]
  · intro i hi hsucc
    obtain ⟨j, hj, hji⟩ := openLoop_some_le env.openFails i hi hsucc i 0 rfl (by omega)
    have hjsome : firstOpenSuccess env.openFails = some j := hj
    constructor
    · rw [GetGripRT, if_neg halertneg, hjsome]
      cases hE : readLoop env.records
          { g := { s with nFrames := 0 }, prevTs := 0.0, lastHeader := none,
            lastRt := none } with
      | error e =>
        obtain ⟨out, g'⟩ := e
        have hout := readLoop_error_shape _ _ _ _ hE
        simp only [hE, hout]
        decide
      | ok st =>
        simp only [hE]
        by_cases hclose : env.closeResult ≠ 0
        · rw [if_pos hclose]
          simp
        · rw [if_neg hclose]
          split <;> split <;> simp
    · rw [openAttempts, hjsome]
      show j + 1 ≤ i + 1
      omega
  · rw [openAttempts]
    cases hF : firstOpenSuccess env.openFails with
    | none => exact le_refl _
    | some j =>
      have := openLoop_some_lt env.openFails MAX_OPEN_CACHE_RETRIES 0 j rfl hF
      show j + 1 ≤ MAX_OPEN_CACHE_RETRIES
      omega

/-- Witness for C8: an environment in which every open attempt fails yields
exactly five attempts and the fatal open-failure exit. -/
theorem openRetry_spec_witness :
    openAttempts envAllFail.openFails = MAX_OPEN_CACHE_RETRIES ∧
    (GetGripRT envAllFail exampleGState).1 = RTOutcome.openFailExit :=
  (openRetry_spec envAllFail exampleGState rfl).1 (fun _ _ => rfl)

/-! ### Claim C2: buffer-full latch -/

/-- C2: with the alert flag latched, GetGripRT returns FALSE with the sample
buffer, frame count, filter state and counter untouched (only the live-mode
checkbox flags change), for every environment, so no file is opened and no
packet is decoded; and any completed pass whose final frame count reaches
MAX_FRAMES latches the alert flag. -/
theorem buffersFull_spec (env : RTEnv) (s : GState) :
    (s.buffers_full_alert = true →
      GetGripRT env s =
        (RTOutcome.ret cFALSE,
          { s with dataLiveChecked := false, dataLiveEnabled := false }) ∧
      (GetGripRT env s).2.buffers_full_alert = true ∧
      (GetGripRT env s).2.nFrames = s.nFrames ∧
      (GetGripRT env s).2.ManipulandumPosition = s.ManipulandumPosition ∧
      (GetGripRT env s).2.ManipulandumRotations = s.ManipulandumRotations ∧
      (GetGripRT env s).2.GripForce = s.GripForce ∧
      (GetGripRT env s).2.NormalForce = s.NormalForce ∧
      (GetGripRT env s).2.LoadForce = s.LoadForce ∧
      (GetGripRT env s).2.LoadForceMagnitude = s.LoadForceMagnitude ∧
      (GetGripRT env s).2.CenterOfPressure = s.CenterOfPressure ∧
      (GetGripRT env s).2.Acceleration = s.Acceleration ∧
      (GetGripRT env s).2.dex = s.dex ∧
      (GetGripRT env s).2.previousTMCounter = s.previousTMCounter) ∧
    (∀ r s', s.buffers_full_alert = false → GetGripRT env s = (RTOutcome.ret r, s') →
      MAX_FRAMES ≤ s'.nFrames → s'.buffers_full_alert = true) := by
  constructor
  · intro hA
    have heq : GetGripRT env s =
        (RTOutcome.ret cFALSE,
          { s with dataLiveChecked := false, dataLiveEnabled := false }) := by
      rw [GetGripRT, if_pos hA]
    exact ⟨heq, by rw [heq]; exact hA, by rw [heq], by rw [heq], by rw [heq], by rw [heq],
      by rw [heq], by rw [heq], by rw [heq], by rw [heq], by rw [heq], by rw [heq],
      by rw [heq]⟩
  · intro r s' hA heq hfull
    have halertneg : ¬ (s.buffers_full_alert = true) := by simp [hA]
    rw [GetGripRT, if_neg halertneg] at heq
    cases hO : firstOpenSuccess env.openFails with
    | none =>
      rw [hO] at heq
      simp at heq
    | some j =>
      rw [hO] at heq
      cases hE : readLoop env.records
          { g := { s with nFrames := 0 }, prevTs := 0.0, lastHeader := none,
            lastRt := none } with
      | error e =>
        obtain ⟨out, g'⟩ := e
        have hout := readLoop_error_shape _ _ _ _ hE
        simp only [hE, hout] at heq
        simp at heq
      | ok st =>
        simp only [hE] at heq
        by_cases hclose : env.closeResult ≠ 0
        · rw [if_pos hclose] at heq
          simp at heq
        · rw [if_neg hclose] at heq
          by_cases hfl : MAX_FRAMES ≤ st.g.nFrames
          · rw [if_pos hfl] at heq
            split at heq <;>
              (injection heq with h1 h2
               subst h2
               rfl)
          · rw [if_neg hfl] at heq
            split at heq <;>
              (injection heq with h1 h2
               subst h2
               exact absurd hfull hfl)

/-- Witness for C2: a latched call under an arbitrary environment (here the
one where every open would fail, which the call never attempts). -/
theorem buffersFull_spec_witness :
    GetGripRT envAllFail { exampleGState with buffers_full_alert := true } =
      (RTOutcome.ret cFALSE,
        { exampleGState with
            buffers_full_alert := true
            dataLiveChecked := false
            dataLiveEnabled := false }) :=
  ((buffersFull_spec envAllFail { exampleGState with buffers_full_alert := true }).1 rfl).1

/-! ### Structure of the stream-break insertion loop -/

/-- The insertion loop is the placeholder writer iterated min(MAX_PLOT_STEP -
count, (MAX_FRAMES - 1) - nFrames) times. -/
lemma insertBreakLoop_eq_iterate :
    ∀ d count g, MAX_PLOT_STEP - count = d →
      insertBreakLoop g count =
        writePlaceholder^[min (MAX_PLOT_STEP - count) ((MAX_FRAMES - 1) - g.nFrames)] g := by
  intro d
  induction d with
  | zero =>
    intro count g hd
    have h8 : ¬ (count < MAX_PLOT_STEP ∧ g.nFrames < MAX_FRAMES - 1) := by omega
    rw [insertBreakLoop, dif_neg h8]
    have hmin : min (MAX_PLOT_STEP - count) ((MAX_FRAMES - 1) - g.nFrames) = 0 := by omega
    rw [hmin]
    rfl
  | succ d ih =>
    intro count g hd
    by_cases hc : count < MAX_PLOT_STEP ∧ g.nFrames < MAX_FRAMES - 1
    · rw [insertBreakLoop, dif_pos hc]
      rw [ih (count + 1) (writePlaceholder g) (by omega)]
      have hwp : (writePlaceholder g).nFrames = g.nFrames + 1 := rfl
      rw [hwp]
      have hmin : min (MAX_PLOT_STEP - (count + 1)) ((MAX_FRAMES - 1) - (g.nFrames + 1)) + 1 =
          min (MAX_PLOT_STEP - count) ((MAX_FRAMES - 1) - g.nFrames) := by omega
      rw [← hmin, Function.iterate_succ_apply]
    · rw [insertBreakLoop, dif_neg hc]
      have hmin : min (MAX_PLOT_STEP - count) ((MAX_FRAMES - 1) - g.nFrames) = 0 := by omega
      rw [hmin]
      rfl

/-- Frame count of the iterated placeholder writer. -/
lemma iterate_wp_nFrames : ∀ (m : ℕ) (g : GState),
    (writePlaceholder^[m] g).nFrames = g.nFrames + m := by
  intro m
  induction m with
  | zero => intro g; simp
  | succ m ih =>
    intro g
    rw [Function.iterate_succ_apply']
    have hstep : ∀ h : GState, (writePlaceholder h).nFrames = h.nFrames + 1 := fun _ => rfl
    rw [hstep, ih]
    omega

/-- Fields that the placeholder writer never touches. -/
lemma iterate_wp_misc : ∀ (m : ℕ) (g : GState),
    (writePlaceholder^[m] g).previousTMCounter = g.previousTMCounter ∧
    (writePlaceholder^[m] g).dex = g.dex ∧
    (writePlaceholder^[m] g).buffers_full_alert = g.buffers_full_alert ∧
    (writePlaceholder^[m] g).RealAnalogTime = g.RealAnalogTime ∧
    (writePlaceholder^[m] g).LoadForce = g.LoadForce ∧
    (writePlaceholder^[m] g).LoadForceMagnitude = g.LoadForceMagnitude ∧
    (writePlaceholder^[m] g).CenterOfPressure = g.CenterOfPressure := by
  intro m
  induction m with
  | zero => intro g; exact ⟨rfl, rfl, rfl, rfl, rfl, rfl, rfl⟩
  | succ m ih =>
    intro g
    rw [Function.iterate_succ_apply']
    obtain ⟨h1, h2, h3, h4, h5, h6, h7⟩ := ih g
    exact ⟨h1, h2, h3, h4, h5, h6, h7⟩

/-- The slice loop never touches the previous telemetry counter. -/
lemma sliceFold_prevTM : ∀ (l : List (Fin RT_SLICES_PER_PACKET)) (g : GState)
    (rt : GripRealtimeDataInfo),
    ((l.foldl (fun acc slice =>
        if acc.nFrames < MAX_FRAMES then processSlice acc (rt.dataSlice slice)
        else acc) g)).previousTMCounter = g.previousTMCounter := by
  intro l
  induction l with
  | nil => intro g rt; rfl
  | cons a l ih =>
    intro g rt
    rw [List.foldl_cons, ih]
    split
    · rfl
    · rfl

/-- Packet processing never touches the previous telemetry counter. -/
lemma processPacket_prevTM (g : GState) (ts : ℝ) (rt : GripRealtimeDataInfo) :
    (processPacket g ts rt).previousTMCounter = g.previousTMCounter := by
  rw [processPacket, sliceLoop, sliceFold_prevTM]
  split
  · rw [insertBreakLoop_eq_iterate MAX_PLOT_STEP 0 g rfl]
    exact (iterate_wp_misc _ g).1
  · rfl

/-- The whole reading loop never touches the previous telemetry counter. -/
lemma readLoop_ok_prevTM : ∀ recs st st', readLoop recs st = .ok st' →
    st'.g.previousTMCounter = st.g.previousTMCounter := by
  intro recs
  induction recs with
  | nil =>
    intro st st' h
    rw [readLoop] at h
    injection h with h2
    rw [← h2]
  | cons r rest ih =>
    intro st st' h
    rw [readLoop] at h
    by_cases hfull : st.g.nFrames < MAX_FRAMES
    · rw [if_pos hfull] at h
      by_cases hbad : r.header.epmSyncMarker ≠ EPM_TELEMETRY_SYNC_VALUE ∨
          r.header.TMIdentifier ≠ GRIP_RT_ID
      · rw [if_pos hbad] at h
        exact absurd h (by simp)
      · rw [if_neg hbad] at h
        have h5 := ih _ _ h
        have h6 : (processPacket st.g st.prevTs r.rt).previousTMCounter =
            st.g.previousTMCounter := processPacket_prevTM _ _ _
        exact h5.trans h6
    · rw [if_neg hfull] at h
      injection h with h2
      rw [← h2]

/-! ### Claim C4: the new-data report -/

/-- C4: whenever GetGripRT returns (no fatal exit), the returned int is TRUE
or FALSE; it is TRUE exactly when the counter of the most recently read header
differs (inequality test, so a wrapped counter still reports new data) from the
counter observed on the previous call; the stored counter is updated to the
last one read; and when the file held no packet the comparison is still made,
against the indeterminate uninitialized header. -/
theorem GetGripRT_newData_spec (env : RTEnv) (s : GState) (r : ℤ) (s' : GState)
    (hAlert : s.buffers_full_alert = false)
    (h : GetGripRT env s = (RTOutcome.ret r, s')) :
    (r = cTRUE ∨ r = cFALSE) ∧
    (r = cTRUE ↔ s.previousTMCounter ≠ passLastTMCounter env s) ∧
    s'.previousTMCounter = passLastTMCounter env s ∧
    (env.records = [] → passLastTMCounter env s = env.uninitHeader.TMCounter) := by
  have halertneg : ¬ (s.buffers_full_alert = true) := by simp [hAlert]
  rw [GetGripRT, if_neg halertneg] at h
  cases hO : firstOpenSuccess env.openFails with
  | none =>
    rw [hO] at h
    simp at h
  | some j =>
    rw [hO] at h
    cases hE : readLoop env.records
        { g := { s with nFrames := 0 }, prevTs := 0.0, lastHeader := none,
          lastRt := none } with
    | error e =>
      obtain ⟨out, g'⟩ := e
      have hout := readLoop_error_shape _ _ _ _ hE
      simp only [hE, hout] at h
      simp at h
    | ok st =>
      simp only [hE] at h
      have hTM : passLastTMCounter env s = (st.lastHeader.getD env.uninitHeader).TMCounter := by
        rw [passLastTMCounter, hE]
      have hprev : st.g.previousTMCounter = s.previousTMCounter := by
        have hp := readLoop_ok_prevTM _ _ _ hE
        simpa using hp
      have hnil : env.records = [] → passLastTMCounter env s = env.uninitHeader.TMCounter := by
        intro hrecs
        rw [hrecs] at hE
        rw [readLoop] at hE
        injection hE with hst
        rw [hTM, ← hst]
        rfl
      by_cases hclose : env.closeResult ≠ 0
      · rw [if_pos hclose] at h
        simp at h
      · rw [if_neg hclose] at h
        by_cases hfl : MAX_FRAMES ≤ st.g.nFrames
        · rw [if_pos hfl] at h
          split at h
          next hcond =>
            injection h with h1 h2
            injection h1 with h1v
            subst h2
            have hne : st.g.previousTMCounter ≠
                (st.lastHeader.getD env.uninitHeader).TMCounter := hcond
            refine ⟨Or.inl h1v.symm, ?_, ?_, hnil⟩
            · rw [← h1v, hTM, ← hprev]
              exact iff_of_true rfl hne
            · rw [hTM]
          next hcond =>
            injection h with h1 h2
            injection h1 with h1v
            subst h2
            have heqc : st.g.previousTMCounter =
                (st.lastHeader.getD env.uninitHeader).TMCounter := of_not_not hcond
            refine ⟨Or.inr h1v.symm, ?_, ?_, hnil⟩
            · rw [← h1v, hTM, ← hprev]
              exact iff_of_false (by rw [cFALSE, cTRUE]; norm_num) (not_not_intro heqc)
            · rw [hTM]
              exact heqc
        · rw [if_neg hfl] at h
          split at h
          next hcond =>
            injection h with h1 h2
            injection h1 with h1v
            subst h2
            have hne : st.g.previousTMCounter ≠
                (st.lastHeader.getD env.uninitHeader).TMCounter := hcond
            refine ⟨Or.inl h1v.symm, ?_, ?_, hnil⟩
            · rw [← h1v, hTM, ← hprev]
              exact iff_of_true rfl hne
            · rw [hTM]
          next hcond =>
            injection h with h1 h2
            injection h1 with h1v
            subst h2
            have heqc : st.g.previousTMCounter =
                (st.lastHeader.getD env.uninitHeader).TMCounter := of_not_not hcond
            refine ⟨Or.inr h1v.symm, ?_, ?_, hnil⟩
            · rw [← h1v, hTM, ← hprev]
              exact iff_of_false (by rw [cFALSE, cTRUE]; norm_num) (not_not_intro heqc)
            · rw [hTM]
              exact heqc

/-- Environment with an immediately available, empty cache file. -/
noncomputable def envEmpty : RTEnv :=
  { openFails := fun _ => false, records := [], closeResult := 0
    uninitHeader := exampleHeader, uninitRt := exampleRt }

/-- Witness for C4: a completed pass over an empty cache returns FALSE, and
the comparison is made against the uninitialized header. -/
theorem GetGripRT_newData_spec_witness :
    (cFALSE = cTRUE ∨ cFALSE = cFALSE) ∧
    (cFALSE = cTRUE ↔
      exampleGState.previousTMCounter ≠ passLastTMCounter envEmpty exampleGState) ∧
    passLastTMCounter envEmpty exampleGState = envEmpty.uninitHeader.TMCounter := by
  have hopen : firstOpenSuccess envEmpty.openFails = some 0 := by
    rw [firstOpenSuccess, openLoop]
    rw [dif_pos (by decide : 0 < MAX_OPEN_CACHE_RETRIES)]
    rw [if_neg (by decide : ¬ (envEmpty.openFails 0 = true))]
  have hrun : GetGripRT envEmpty exampleGState = (RTOutcome.ret cFALSE, exampleGState) := by
    rw [GetGripRT, if_neg (by decide : ¬ (exampleGState.buffers_full_alert = true)), hopen]
    rfl
  have h := GetGripRT_newData_spec envEmpty exampleGState cFALSE exampleGState rfl hrun
  exact ⟨h.1, h.2.1, h.2.2.2 rfl⟩

/-! ### Claim C1: stream-break placeholder insertion -/

/-- The missing-data vector. -/
noncomputable def missingVector : Vector3 := ⟨MISSING_DOUBLE, MISSING_DOUBLE, MISSING_DOUBLE⟩

/-- A placeholder (blank) frame as written by the stream-break insertion loop:
every channel assigned by lines 171-191 of GripMMIData.cpp holds the missing
sentinel at index i. -/
noncomputable def placeholderFrameAt (g : GState) (i : ℕ) : Prop :=
  g.ManipulandumPosition i = missingVector ∧
  g.ManipulandumRotations i = missingVector ∧
  g.GripForce i = MISSING_DOUBLE ∧
  (∀ ati : Fin 2, g.NormalForce ati i = MISSING_DOUBLE) ∧
  g.Acceleration i = missingVector ∧
  (∀ mrk, mrk < CODA_MARKERS → g.MarkerVisibility i mrk = MISSING_DOUBLE) ∧
  g.ManipulandumVisibility i = MISSING_DOUBLE ∧
  g.FrameVisibility i = MISSING_DOUBLE ∧
  g.WristVisibility i = MISSING_DOUBLE ∧
  g.PacketReceived i = MISSING_DOUBLE ∧
  g.RealMarkerTime i = MISSING_DOUBLE

lemma wp_establishes (g : GState) : placeholderFrameAt (writePlaceholder g) g.nFrames := by
  unfold placeholderFrameAt
  simp [writePlaceholder, missingVector]
  intro mrk h1 h2
  omega

lemma wp_preserves (g : GState) (i : ℕ) (hne : i ≠ g.nFrames)
    (h : placeholderFrameAt g i) : placeholderFrameAt (writePlaceholder g) i := by
  unfold placeholderFrameAt at h ⊢
  simpa [writePlaceholder, Function.update_noteq hne] using h

lemma iterate_wp_placeholder : ∀ (m : ℕ) (g : GState) (i : ℕ),
    g.nFrames ≤ i → i < g.nFrames + m →
    placeholderFrameAt (writePlaceholder^[m] g) i := by
  intro m
  induction m with
  | zero => intro g i h1 h2; omega
  | succ m ih =>
    intro g i h1 h2
    rw [Function.iterate_succ_apply']
    by_cases hi : i < g.nFrames + m
    · refine wp_preserves _ i ?_ (ih g i h1 hi)
      rw [iterate_wp_nFrames]
      omega
    · have hieq : i = g.nFrames + m := by omega
      have hset := wp_establishes (writePlaceholder^[m] g)
      rw [iterate_wp_nFrames] at hset
      rw [hieq]
      exact hset

/-- C1 (amended): when a packet timestamp exceeds the previous one by more
than the stream-break threshold, GetGripRT first runs the insertion loop and
then decodes the slices; the loop appends exactly min(MAX_PLOT_STEP,
(MAX_FRAMES - 1) - nFrames) frames - so exactly MAX_PLOT_STEP = 8 of them
whenever at least that much room remains below MAX_FRAMES - 1, not
PACKET_STREAM_BREAK_INSERT_SAMPLES = 10 - every one of which has the
placeholder channels set to the missing sentinel, and the filter state is not
touched by the insertion. -/
theorem streamBreak_insert_spec (g : GState) (prevTs : ℝ) (rt : GripRealtimeDataInfo)
    (hgap : rt.packetTimestamp - prevTs > PACKET_STREAM_BREAK_THRESHOLD) :
    processPacket g prevTs rt = sliceLoop (insertBreakLoop g 0) rt ∧
    (insertBreakLoop g 0).nFrames =
      g.nFrames + min MAX_PLOT_STEP ((MAX_FRAMES - 1) - g.nFrames) ∧
    (∀ i, g.nFrames ≤ i → i < (insertBreakLoop g 0).nFrames →
      placeholderFrameAt (insertBreakLoop g 0) i) ∧
    (insertBreakLoop g 0).dex = g.dex := by
  refine ⟨?_, ?_, ?_, ?_⟩
  · rw [processPacket, if_pos hgap]
  · rw [insertBreakLoop_eq_iterate MAX_PLOT_STEP 0 g rfl, iterate_wp_nFrames]
    simp
  · intro i h1 h2
    rw [insertBreakLoop_eq_iterate MAX_PLOT_STEP 0 g rfl] at h2 ⊢
    refine iterate_wp_placeholder _ g i h1 ?_
    rw [iterate_wp_nFrames] at h2
    exact h2
  · rw [insertBreakLoop_eq_iterate MAX_PLOT_STEP 0 g rfl]
    exact (iterate_wp_misc _ g).2.1

/-- Witness for C1 (amended claim): the insertion at the empty example state. -/
theorem streamBreak_insert_spec_witness :
    (insertBreakLoop exampleGState 0).nFrames =
      exampleGState.nFrames +
        min MAX_PLOT_STEP ((MAX_FRAMES - 1) - exampleGState.nFrames) ∧
    processPacket exampleGState 0 exampleRt =
      sliceLoop (insertBreakLoop exampleGState 0) exampleRt := by
  have hgap : exampleRt.packetTimestamp - 0 > PACKET_STREAM_BREAK_THRESHOLD := by
    show (2 : ℝ) - 0 > PACKET_STREAM_BREAK_THRESHOLD
    rw [PACKET_STREAM_BREAK_THRESHOLD]
    norm_num
  have h := streamBreak_insert_spec exampleGState 0 exampleRt hgap
  exact ⟨h.2.1, h.1⟩

/-- Counterexample for C1 as stated: at the empty example state (0 of 864000
frames used, so capacity does not bind) and with a packet gap of 2 > 1, the
decoder inserts exactly 8 placeholder frames before decoding the slices -
MAX_PLOT_STEP of them, not the PACKET_STREAM_BREAK_INSERT_SAMPLES = 10 that
the packet header file defines for this purpose; moreover the inserted frame
leaves the RealAnalogTime channel at its stale value rather than the missing
sentinel, so not every recorded channel is set to missing. -/
theorem streamBreak_insert_count_cex :
    exampleRt.packetTimestamp - 0 > PACKET_STREAM_BREAK_THRESHOLD ∧
    exampleGState.nFrames + PACKET_STREAM_BREAK_INSERT_SAMPLES < MAX_FRAMES - 1 ∧
    processPacket exampleGState 0 exampleRt =
      sliceLoop (insertBreakLoop exampleGState 0) exampleRt ∧
    (insertBreakLoop exampleGState 0).nFrames - exampleGState.nFrames = MAX_PLOT_STEP ∧
    (insertBreakLoop exampleGState 0).nFrames - exampleGState.nFrames ≠
      PACKET_STREAM_BREAK_INSERT_SAMPLES ∧
    (insertBreakLoop exampleGState 0).RealAnalogTime 0 = 0 ∧
    (0 : ℝ) ≠ MISSING_DOUBLE := by
  have hgap : exampleRt.packetTimestamp - 0 > PACKET_STREAM_BREAK_THRESHOLD := by
    show (2 : ℝ) - 0 > PACKET_STREAM_BREAK_THRESHOLD
    rw [PACKET_STREAM_BREAK_THRESHOLD]
    norm_num
  have hn : (insertBreakLoop exampleGState 0).nFrames = 8 := by
    rw [insertBreakLoop_eq_iterate MAX_PLOT_STEP 0 exampleGState rfl, iterate_wp_nFrames]
    rfl
  refine ⟨hgap, by decide, by rw [processPacket, if_pos hgap], ?_, ?_, ?_, ?_⟩
  · rw [hn]
    rfl
  · rw [hn]
    decide
  · rw [insertBreakLoop_eq_iterate MAX_PLOT_STEP 0 exampleGState rfl]
    rw [(iterate_wp_misc _ exampleGState).2.2.2.1]
    rfl
  · rw [MISSING_DOUBLE]
    norm_num

/-! ### Claim C5: per-slice visibility handling -/

lemma FilterGripForce_posAcc (s : DexState) (x : ℝ) :
    (FilterGripForce s x).2.filteredManipulandumPosition = s.filteredManipulandumPosition := rfl

lemma FilterGripForce_rotAcc (s : DexState) (x : ℝ) :
    (FilterGripForce s x).2.filteredManipulandumRotations = s.filteredManipulandumRotations := rfl

lemma FilterNormalForce_posAcc (s : DexState) (x : ℝ) (ati : ℤ) :
    (FilterNormalForce s x ati).2.filteredManipulandumPosition =
      s.filteredManipulandumPosition := by
  rw [FilterNormalForce]
  split
  · rfl
  · rfl

lemma FilterNormalForce_rotAcc (s : DexState) (x : ℝ) (ati : ℤ) :
    (FilterNormalForce s x ati).2.filteredManipulandumRotations =
      s.filteredManipulandumRotations := by
  rw [FilterNormalForce]
  split
  · rfl
  · rfl

lemma FilterLoadForce_posAcc (s : DexState) (v : Vector3) :
    (FilterLoadForce s v).2.2.filteredManipulandumPosition = s.filteredManipulandumPosition := rfl

lemma FilterLoadForce_rotAcc (s : DexState) (v : Vector3) :
    (FilterLoadForce s v).2.2.filteredManipulandumRotations =
      s.filteredManipulandumRotations := rfl

lemma FilterCoP_posAcc (s : DexState) (a : Fin 2) (c : Vector3) :
    (FilterCoP s a c).2.2.filteredManipulandumPosition = s.filteredManipulandumPosition := rfl

lemma FilterCoP_rotAcc (s : DexState) (a : Fin 2) (c : Vector3) :
    (FilterCoP s a c).2.2.filteredManipulandumRotations = s.filteredManipulandumRotations := rfl

lemma FilterAcceleration_posAcc (s : DexState) (v : Vector3) :
    (FilterAcceleration s v).2.2.filteredManipulandumPosition =
      s.filteredManipulandumPosition := rfl

lemma FilterAcceleration_rotAcc (s : DexState) (v : Vector3) :
    (FilterAcceleration s v).2.2.filteredManipulandumRotations =
      s.filteredManipulandumRotations := rfl

lemma FilterManipulandumRotations_posAcc (s : DexState) (r : Vector3) :
    (FilterManipulandumRotations s r).2.2.filteredManipulandumPosition =
      s.filteredManipulandumPosition := rfl

lemma FilterManipulandumPosition_rotAcc (s : DexState) (p : Vector3) :
    (FilterManipulandumPosition s p).2.2.filteredManipulandumRotations =
      s.filteredManipulandumRotations := rfl

lemma FilterManipulandumPosition_newAcc (s : DexState) (p : Vector3) :
    (FilterManipulandumPosition s p).2.2.filteredManipulandumPosition =
      (FilterManipulandumPosition s p).2.1 := rfl

lemma FilterManipulandumRotations_newAcc (s : DexState) (r : Vector3) :
    (FilterManipulandumRotations s r).2.2.filteredManipulandumRotations =
      (FilterManipulandumRotations s r).2.1 := rfl

lemma snd_ite {α β : Type} (c : Prop) [Decidable c] (a b : α × β) :
    (if c then a else b).2 = if c then a.2 else b.2 := by
  split
  · rfl
  · rfl

lemma posAcc_ite (c : Prop) [Decidable c] (a b : DexState) :
    (if c then a else b).filteredManipulandumPosition =
      if c then a.filteredManipulandumPosition else b.filteredManipulandumPosition := by
  split
  · rfl
  · rfl

lemma rotAcc_ite (c : Prop) [Decidable c] (a b : DexState) :
    (if c then a else b).filteredManipulandumRotations =
      if c then a.filteredManipulandumRotations else b.filteredManipulandumRotations := by
  split
  · rfl
  · rfl

/-- Behaviour of one slice when the manipulandum is not visible: position and
rotation channels get the missing sentinel and the position and rotation
filter accumulators are untouched. -/
lemma processSlice_pose_invisible (g : GState) (d : ManipulandumPacket)
    (hvis : d.manipulandumVisibility = 0) :
    (processSlice g d).ManipulandumPosition g.nFrames = missingVector ∧
    (processSlice g d).ManipulandumRotations g.nFrames = missingVector ∧
    (processSlice g d).dex.filteredManipulandumPosition =
      g.dex.filteredManipulandumPosition ∧
    (processSlice g d).dex.filteredManipulandumRotations =
      g.dex.filteredManipulandumRotations := by
  refine ⟨?_, ?_, ?_, ?_⟩ <;>
    simp [processSlice, hvis, missingVector, snd_ite, posAcc_ite, rotAcc_ite,
      FilterGripForce_posAcc, FilterGripForce_rotAcc, FilterNormalForce_posAcc,
      FilterNormalForce_rotAcc, FilterLoadForce_posAcc, FilterLoadForce_rotAcc,
      FilterCoP_posAcc, FilterCoP_rotAcc, FilterAcceleration_posAcc,
      FilterAcceleration_rotAcc, FilterManipulandumRotations_posAcc,
      FilterManipulandumPosition_rotAcc]

/-- Behaviour of one slice when the manipulandum is visible: the buffer gets
the recursive-filter output of the raw position divided by 10 and of the
canonical rotation angles, and the two accumulators are updated to those
outputs. -/
lemma processSlice_pose_visible (g : GState) (d : ManipulandumPacket)
    (hvis : d.manipulandumVisibility ≠ 0) :
    (processSlice g d).ManipulandumPosition g.nFrames =
      (FilterManipulandumPosition g.dex
        ⟨d.position.x / 10.0, d.position.y / 10.0, d.position.z / 10.0⟩).2.1 ∧
    (processSlice g d).ManipulandumRotations g.nFrames =
      (FilterManipulandumRotations
        (FilterManipulandumPosition g.dex
          ⟨d.position.x / 10.0, d.position.y / 10.0, d.position.z / 10.0⟩).2.2
        (QuaternionToCannonicalRotations d.quaternion)).2.1 ∧
    (processSlice g d).dex.filteredManipulandumPosition =
      (FilterManipulandumPosition g.dex
        ⟨d.position.x / 10.0, d.position.y / 10.0, d.position.z / 10.0⟩).2.1 ∧
    (processSlice g d).dex.filteredManipulandumRotations =
      (FilterManipulandumRotations
        (FilterManipulandumPosition g.dex
          ⟨d.position.x / 10.0, d.position.y / 10.0, d.position.z / 10.0⟩).2.2
        (QuaternionToCannonicalRotations d.quaternion)).2.1 := by
  refine ⟨?_, ?_, ?_, ?_⟩ <;>
    simp [processSlice, hvis, snd_ite, posAcc_ite, rotAcc_ite,
      FilterGripForce_posAcc, FilterGripForce_rotAcc, FilterNormalForce_posAcc,
      FilterNormalForce_rotAcc, FilterLoadForce_posAcc, FilterLoadForce_rotAcc,
      FilterCoP_posAcc, FilterCoP_rotAcc, FilterAcceleration_posAcc,
      FilterAcceleration_rotAcc, FilterManipulandumRotations_posAcc,
      FilterManipulandumPosition_rotAcc, FilterManipulandumPosition_newAcc,
      FilterManipulandumRotations_newAcc]

/-- C5 (amended): per decoded sample slice, a false manipulandum-visible flag
records the missing sentinel in the position and rotation channels and leaves
the position and rotation filter accumulators unchanged (no filter update);
a true flag feeds the raw position divided by 10 and the canonical rotation
angles through the recursive filter, recording the filter outputs in the
buffer and in the accumulators. -/
theorem processSlice_visibility_spec (g : GState) (d : ManipulandumPacket) :
    (d.manipulandumVisibility = 0 →
      (processSlice g d).ManipulandumPosition g.nFrames = missingVector ∧
      (processSlice g d).ManipulandumRotations g.nFrames = missingVector ∧
      (processSlice g d).dex.filteredManipulandumPosition =
        g.dex.filteredManipulandumPosition ∧
      (processSlice g d).dex.filteredManipulandumRotations =
        g.dex.filteredManipulandumRotations) ∧
    (d.manipulandumVisibility ≠ 0 →
      (processSlice g d).ManipulandumPosition g.nFrames =
        (FilterManipulandumPosition g.dex
          ⟨d.position.x / 10.0, d.position.y / 10.0, d.position.z / 10.0⟩).2.1 ∧
      (processSlice g d).ManipulandumRotations g.nFrames =
        (FilterManipulandumRotations
          (FilterManipulandumPosition g.dex
            ⟨d.position.x / 10.0, d.position.y / 10.0, d.position.z / 10.0⟩).2.2
          (QuaternionToCannonicalRotations d.quaternion)).2.1 ∧
      (processSlice g d).dex.filteredManipulandumPosition =
        (FilterManipulandumPosition g.dex
          ⟨d.position.x / 10.0, d.position.y / 10.0, d.position.z / 10.0⟩).2.1 ∧
      (processSlice g d).dex.filteredManipulandumRotations =
        (FilterManipulandumRotations
          (FilterManipulandumPosition g.dex
            ⟨d.position.x / 10.0, d.position.y / 10.0, d.position.z / 10.0⟩).2.2
          (QuaternionToCannonicalRotations d.quaternion)).2.1) :=
  ⟨fun h => processSlice_pose_invisible g d h, fun h => processSlice_pose_visible g d h⟩

/-- Witness for C5 (amended claim): the invisible branch at the all-zero
slice. -/
theorem processSlice_visibility_spec_witness :
    (processSlice exampleGState exampleSlice).ManipulandumPosition exampleGState.nFrames =
      missingVector ∧
    (processSlice exampleGState exampleSlice).dex.filteredManipulandumPosition =
      exampleGState.dex.filteredManipulandumPosition := by
  have h := (processSlice_visibility_spec exampleGState exampleSlice).1 rfl
  exact ⟨h.1, h.2.2.1⟩

/-- Concrete visible slice whose raw position is (10, 0, 0). -/
noncomputable def exampleSliceVisible : ManipulandumPacket :=
  { exampleSlice with manipulandumVisibility := 1, position := ⟨10, 0, 0⟩ }

/-- Counterexample for C5 as stated: for a visible slice processed by the
freshly constructed decoder (filter constant 100, zeroed accumulators), the
recorded position is the filter output, which differs from the raw position
divided by 10. -/
theorem visibleSlice_position_cex :
    exampleSliceVisible.manipulandumVisibility ≠ 0 ∧
    (processSlice exampleGState exampleSliceVisible).ManipulandumPosition
        exampleGState.nFrames ≠
      ⟨exampleSliceVisible.position.x / 10.0, exampleSliceVisible.position.y / 10.0,
        exampleSliceVisible.position.z / 10.0⟩ := by
  have hvis : exampleSliceVisible.manipulandumVisibility ≠ 0 := by
    show (1 : ℕ) ≠ 0
    decide
  refine ⟨hvis, ?_⟩
  have h := (processSlice_pose_visible exampleGState exampleSliceVisible hvis).1
  rw [h]
  intro hEq
  have hx := congrArg Vector3.x hEq
  norm_num [FilterManipulandumPosition, ScaleVector, AddVectors, exampleDex,
    initialDexState, zeroVector, exampleSliceVisible, exampleSlice, exampleGState] at hx

/-! ### Claim C10: housekeeping reader return values -/

lemma hkLoop_error_shape : ∀ recs lh hk out, hkLoop recs lh hk = .error out →
    out = HKOutcome.badPacketExit := by
  intro recs
  induction recs with
  | nil =>
    intro lh hk out h
    rw [hkLoop] at h
    exact absurd h (by simp)
  | cons r rest ih =>
    intro lh hk out h
    rw [hkLoop] at h
    by_cases hbad : r.header.epmSyncMarker ≠ EPM_TELEMETRY_SYNC_VALUE ∨
        r.header.TMIdentifier ≠ GRIP_HK_ID
    · rw [if_pos hbad] at h
      injection h with h2
      exact h2.symm
    · rw [if_neg hbad] at h
      exact ih _ _ out h

/-- C10: GetLatestGripHK never returns ERROR_CACHE_NOT_FOUND: every returned
code is TRUE or FALSE, and persistent open failure terminates via the fatal
open-failure exit instead of returning, so the branch of the caller on an
ERROR_CACHE_NOT_FOUND return can never be taken. -/
theorem GetLatestGripHK_return_spec (env : HKEnv) (prev : ℕ)
    (hk0 : GripHealthAndStatusInfo) :
    (∀ r pc hk', GetLatestGripHK env prev hk0 = (HKOutcome.ret r, pc, hk') →
      (r = cTRUE ∨ r = cFALSE) ∧ r ≠ ERROR_CACHE_NOT_FOUND) ∧
    ((∀ i, i < MAX_OPEN_CACHE_RETRIES → env.openFails i = true) →
      (GetLatestGripHK env prev hk0).1 = HKOutcome.openFailExit) := by
  constructor
  · intro r pc hk' h
    rw [GetLatestGripHK] at h
    cases hO : firstOpenSuccess env.openFails with
    | none =>
      rw [hO] at h
      simp at h
    | some j =>
      rw [hO] at h
      cases hL : hkLoop env.records none hk0 with
      | error e =>
        have he := hkLoop_error_shape _ _ _ _ hL
        simp only [hL, he] at h
        simp at h
      | ok p =>
        obtain ⟨lastHeader, hk1⟩ := p
        simp only [hL] at h
        by_cases hclose : env.closeResult ≠ 0
        · rw [if_pos hclose] at h
          simp at h
        · rw [if_neg hclose] at h
          split at h
          next hcond =>
            injection h with h1 h2
            injection h1 with h1v
            refine ⟨Or.inl h1v.symm, ?_⟩
            rw [← h1v]
            decide
          next hcond =>
            injection h with h1 h2
            injection h1 with h1v
            refine ⟨Or.inr h1v.symm, ?_⟩
            rw [← h1v]
            decide
  · intro hAll
    have hnone : firstOpenSuccess env.openFails = none :=
      openLoop_none env.openFails MAX_OPEN_CACHE_RETRIES 0 rfl (fun m _ hm => hAll m hm)
    rw [GetLatestGripHK, hnone]

/-- Concrete valid housekeeping header. -/
def exampleHkHeader : EPMTelemetryHeaderInfo :=
  { epmSyncMarker := EPM_TELEMETRY_SYNC_VALUE, TMIdentifier := GRIP_HK_ID, TMCounter := 0 }

/-- Concrete all-zero housekeeping payload. -/
def exampleHk : GripHealthAndStatusInfo :=
  ⟨0, 0, 0, 0, 0, 0, 0, 0, 0, 0, 0, 0, 0, 0, 0, 0, 0, 0, 0, 0⟩

/-- Housekeeping environment with an immediately available, empty cache. -/
def envHkEmpty : HKEnv :=
  { openFails := fun _ => false, records := [], closeResult := 0
    uninitHeader := exampleHkHeader }

/-- Witness for C10: a completed run over an empty housekeeping cache returns
FALSE, which is a legal return value and differs from ERROR_CACHE_NOT_FOUND. -/
theorem GetLatestGripHK_return_spec_witness :
    (cFALSE = cTRUE ∨ cFALSE = cFALSE) ∧ cFALSE ≠ ERROR_CACHE_NOT_FOUND := by
  have hopen : firstOpenSuccess envHkEmpty.openFails = some 0 := by
    rw [firstOpenSuccess, openLoop]
    rw [dif_pos (by decide : 0 < MAX_OPEN_CACHE_RETRIES)]
    rw [if_neg (by decide : ¬ (envHkEmpty.openFails 0 = true))]
  have hrun : GetLatestGripHK envHkEmpty 0 exampleHk =
      (HKOutcome.ret cFALSE, 0, exampleHk) := by
    rw [GetLatestGripHK, hopen]
    rfl
  exact (GetLatestGripHK_return_spec envHkEmpty 0 exampleHk).1 cFALSE 0 exampleHk hrun

end

end GripMMI
